import Mathlib

/-!
Shallow embedding of the Catan game-logic engine (src/server/gameLogic.js)
and proofs about the claims of the specification.

Modelling conventions, used throughout:

* JS string keys `q,r` / `v_q_r_dir` / `e_q_r_dir` are modelled as structured
  triples (`HexCoord`, `VKey`, `EKey`).  The string encodings are injective on
  the triples and the regular-expression decoder in the source round-trips
  every well-formed key, so structural equality of the triples coincides with
  string equality of the keys.  The regex-failure branches of the source
  (which return false / null for malformed key strings) are unreachable in
  this model and are noted where they occur.
* JS objects used as dictionaries (`game.hexes`, `game.vertices`,
  `game.edges`) are modelled as association lists in insertion order;
  assignment replaces the first binding of an existing key and appends a new
  key at the end, exactly like JS property assignment, and `Object.entries`
  iteration is iteration over the list.
* JS numbers holding integer counters are modelled as `Int` (they can go
  negative when the code subtracts without validating, which is part of what
  is under study).  Indices are `Nat`, except where the source compares a
  `findIndex` result that can be `-1`, which is modelled as `Int`.
* `Math.floor(Math.random() * bound)` produces an arbitrary element of
  `[0, bound)`; every use is modelled by an explicit extra parameter taken
  modulo `bound`, so the set of possible behaviours is exactly preserved.
* Error message strings of the source are modelled by the enumeration
  `GameError`, one constructor per distinct source message.
* Display-only fields (hex/player colours, port display names and icons) are
  omitted; nothing in the logic reads them.
-/

namespace Catan

set_option maxRecDepth 10000

/-- The five resource kinds (source constant `RESOURCES`). -/
inductive Res
  | brick
  | lumber
  | wool
  | grain
  | ore
deriving DecidableEq, Repr

/-- Key order of the JS literal `{ brick: 0, lumber: 0, wool: 0, grain: 0, ore: 0 }`,
which is the `Object.entries`/`Object.values` iteration order for resource records. -/
def resOrder : List Res := [Res.brick, Res.lumber, Res.wool, Res.grain, Res.ore]

/-- A resource record, i.e. the JS object `{brick, lumber, wool, grain, ore}`.
Counters are `Int`: the source never clamps a subtraction. -/
structure Resources where
  brick : Int
  lumber : Int
  wool : Int
  grain : Int
  ore : Int
deriving DecidableEq, Repr

def Resources.get (r : Resources) : Res → Int
  | Res.brick => r.brick
  | Res.lumber => r.lumber
  | Res.wool => r.wool
  | Res.grain => r.grain
  | Res.ore => r.ore

def Resources.set (r : Resources) : Res → Int → Resources
  | Res.brick, v => { r with brick := v }
  | Res.lumber, v => { r with lumber := v }
  | Res.wool, v => { r with wool := v }
  | Res.grain, v => { r with grain := v }
  | Res.ore, v => { r with ore := v }

def Resources.add (r : Resources) (x : Res) (v : Int) : Resources :=
  r.set x (r.get x + v)

/-- `Object.values(p.resources).reduce((a, b) => a + b, 0)`. -/
def Resources.total (r : Resources) : Int :=
  r.brick + r.lumber + r.wool + r.grain + r.ore

def zeroRes : Resources := ⟨0, 0, 0, 0, 0⟩

/-- `Object.entries(r)` in source key order. -/
def Resources.entries (r : Resources) : List (Res × Int) :=
  resOrder.map (fun x => (x, r.get x))

/-- Terrain kinds (source constant `TERRAIN`). -/
inductive Terrain
  | hills
  | forest
  | pasture
  | fields
  | mountains
  | desert
deriving DecidableEq, Repr

/-- The resource produced by a terrain (the `resource` field of `TERRAIN`). -/
def Terrain.resource : Terrain → Option Res
  | Terrain.hills => some Res.brick
  | Terrain.forest => some Res.lumber
  | Terrain.pasture => some Res.wool
  | Terrain.fields => some Res.grain
  | Terrain.mountains => some Res.ore
  | Terrain.desert => none

/-- Development card kinds (source constant `DEV_CARDS`). -/
inductive DevCard
  | knight
  | victoryPoint
  | roadBuilding
  | yearOfPlenty
  | monopoly
deriving DecidableEq, Repr

/-- Building kinds stored on a vertex. -/
inductive Building
  | settlement
  | city
deriving DecidableEq, Repr

/-- Coarse game phase. -/
inductive Phase
  | waiting
  | setup
  | playing
  | finished
deriving DecidableEq, Repr

/-- Fine turn phase. -/
inductive TurnPhase
  | roll
  | main
  | robber
  | discard
  | specialBuild
deriving DecidableEq, Repr

/-- One constructor per distinct failure message string of the source. -/
inductive GameError
  | gameFull
  | gameAlreadyStarted
  | needTwoPlayers
  | shuffleAfterStart
  | notYourTurn
  | cannotRollNow
  | playerNotFound
  | noDiscardNeeded
  | mustDiscardExactly
  | notEnoughResource
  | cannotMoveRobberNow
  | invalidHex
  | robberSameHex
  | invalidVertex
  | locationOccupied
  | noSettlementsLeft
  | tooClose
  | mustConnectRoad
  | notEnoughResources
  | invalidEdge
  | roadAlreadyExists
  | noRoadsLeft
  | invalidEdgeKey
  | mustConnectOwn
  | cannotBuildNow
  | noSettlementToUpgrade
  | noCitiesLeft
  | cannotBuyNow
  | deckEmpty
  | onlyOneDevCard
  | doNotHaveCard
  | mustSpecifyResource
  | vpCardUnplayable
  | noPicksRemaining
  | cannotTradeNow
  | ratioMismatch
  | noTradeOffer
  | cannotRespondOwnTrade
  | onlyOffererCancels
  | completeSetupFirst
  | cannotEndTurnNow
  | notInSpecialBuild
  | notYourSpecialBuild
  | notInSetupPhase
deriving DecidableEq, Repr

/-- Hex map key, the string `q,r` of `hexKey`. -/
structure HexCoord where
  q : Int
  r : Int
deriving DecidableEq, Repr

/-- Vertex key, the string `v_q_r_dir` of `vertexKey`. -/
structure VKey where
  q : Int
  r : Int
  dir : Nat
deriving DecidableEq, Repr

/-- Edge key, the string `e_q_r_dir` of `edgeKey`. -/
structure EKey where
  q : Int
  r : Int
  dir : Nat
deriving DecidableEq, Repr

/-! ### Association lists: JS objects used as dictionaries -/

/-- Lookup of a key in a JS-object-as-dictionary. -/
def alookup {κ ν : Type} [DecidableEq κ] (l : List (κ × ν)) (k : κ) : Option ν :=
  match l with
  | [] => none
  | (k', v) :: t => if k' = k then some v else alookup t k

/-- JS property assignment: replace the first binding of an existing key in
place, append a new key at the end. -/
def aset {κ ν : Type} [DecidableEq κ] (l : List (κ × ν)) (k : κ) (v : ν) : List (κ × ν) :=
  match l with
  | [] => [(k, v)]
  | (k', v') :: t => if k' = k then (k, v) :: t else (k', v') :: aset t k v

theorem alookup_aset_self {κ ν : Type} [DecidableEq κ] (l : List (κ × ν)) (k : κ) (v : ν) :
    alookup (aset l k v) k = some v := by
  induction l with
  | nil => simp [aset, alookup]
  | cons h t ih =>
    obtain ⟨k', v'⟩ := h
    by_cases hk : k' = k
    · simp [aset, hk, alookup]
    · simp [aset, hk, alookup, ih]

theorem alookup_aset_ne {κ ν : Type} [DecidableEq κ] (l : List (κ × ν)) (k k' : κ) (v : ν)
    (hne : k ≠ k') : alookup (aset l k v) k' = alookup l k' := by
  induction l with
  | nil => simp [aset, alookup, hne]
  | cons h t ih =>
    obtain ⟨k0, v0⟩ := h
    by_cases hk : k0 = k
    · subst hk
      simp [aset, alookup, hne]
    · simp [aset, hk, alookup]
      split <;> simp_all [alookup]

/-- Membership of a found binding among the values of the list. -/
theorem alookup_mem {κ ν : Type} [DecidableEq κ] {l : List (κ × ν)} {k : κ} {v : ν}
    (h : alookup l k = some v) : (k, v) ∈ l := by
  induction l with
  | nil => simp [alookup] at h
  | cons hd t ih =>
    obtain ⟨k', v'⟩ := hd
    by_cases hk : k' = k
    · subst hk
      simp [alookup] at h
      simp [h]
    · simp [alookup, hk] at h
      exact List.mem_cons_of_mem _ (ih h)

/-! ### Indexed enumeration (JS `forEach((x, idx) => ...)` and `players.map((p, idx) => ...)`) -/

def enumFrom {α : Type} (k : Nat) : List α → List (Nat × α)
  | [] => []
  | a :: t => (k, a) :: enumFrom (k + 1) t

theorem mem_enumFrom {α : Type} {l : List α} {k : Nat} {p : Nat × α} :
    p ∈ enumFrom k l ↔ ∃ j, l.get? j = some p.2 ∧ p.1 = k + j := by
  induction l generalizing k with
  | nil => simp [enumFrom]
  | cons a t ih =>
    simp only [enumFrom, List.mem_cons, ih]
    constructor
    · rintro (h | ⟨j, hg, hk⟩)
      · exact ⟨0, by simp [h], by simp [h]⟩
      · exact ⟨j + 1, by simpa using hg, by omega⟩
    · rintro ⟨j, hg, hk⟩
      cases j with
      | zero =>
        left
        simp at hg hk
        cases p
        simp_all
      | succ j =>
        right
        exact ⟨j, by simpa using hg, by omega⟩

def mapIdxFrom {α β : Type} (k : Nat) (f : Nat → α → β) : List α → List β
  | [] => []
  | a :: t => f k a :: mapIdxFrom (k + 1) f t

theorem get?_mapIdxFrom {α β : Type} (f : Nat → α → β) (l : List α) (k j : Nat) :
    (mapIdxFrom k f l).get? j = (l.get? j).map (f (k + j)) := by
  induction l generalizing k j with
  | nil => simp [mapIdxFrom]
  | cons a t ih =>
    cases j with
    | zero => simp [mapIdxFrom]
    | succ j =>
      simp only [mapIdxFrom, List.get?_cons_succ, ih]
      have : k + 1 + j = k + (j + 1) := by omega
      rw [this]

theorem length_mapIdxFrom {α β : Type} (f : Nat → α → β) (l : List α) (k : Nat) :
    (mapIdxFrom k f l).length = l.length := by
  induction l generalizing k with
  | nil => rfl
  | cons a t ih => simp [mapIdxFrom, ih]

/-! ### Coordinate system: vertex and edge equivalence (source lines 262-699) -/

/-- `getEquivalentVertices`: the up-to-3 (hex, direction) representations of one
physical vertex.  A direction outside 0-5 falls through every branch of the
source and yields only the identity representation. -/
def getEquivalentVertices (q r : Int) (dir : Nat) : List VKey :=
  ⟨q, r, dir⟩ ::
    (if dir = 0 then [⟨q, r - 1, 2⟩, ⟨q + 1, r - 1, 4⟩]
     else if dir = 1 then [⟨q + 1, r - 1, 3⟩, ⟨q + 1, r, 5⟩]
     else if dir = 2 then [⟨q + 1, r, 4⟩, ⟨q, r + 1, 0⟩]
     else if dir = 3 then [⟨q, r + 1, 5⟩, ⟨q - 1, r + 1, 1⟩]
     else if dir = 4 then [⟨q - 1, r + 1, 0⟩, ⟨q - 1, r, 2⟩]
     else if dir = 5 then [⟨q - 1, r, 1⟩, ⟨q, r - 1, 3⟩]
     else [])

/-- `areVerticesEqual`: two keys denote the same physical vertex. -/
def areVerticesEqual (v1 v2 : VKey) : Bool :=
  if v1 = v2 then true
  else (getEquivalentVertices v1.q v1.r v1.dir).any (fun eq2 => eq2 = v2)

/-- `getEquivalentEdges`: the 2 (hex, direction) representations of one
physical edge. -/
def getEquivalentEdges (q r : Int) (dir : Nat) : List EKey :=
  ⟨q, r, dir⟩ ::
    (if dir = 0 then [⟨q + 1, r - 1, 3⟩]
     else if dir = 1 then [⟨q + 1, r, 4⟩]
     else if dir = 2 then [⟨q, r + 1, 5⟩]
     else if dir = 3 then [⟨q - 1, r + 1, 0⟩]
     else if dir = 4 then [⟨q - 1, r, 1⟩]
     else if dir = 5 then [⟨q, r - 1, 2⟩]
     else [])

/-- `getVertexEdgesFromHex`: the 3 edges touching a vertex, seen from one hex. -/
def getVertexEdgesFromHex (q r : Int) (dir : Nat) : List EKey :=
  if dir = 0 then [⟨q, r, 5⟩, ⟨q, r, 0⟩, ⟨q, r - 1, 1⟩]
  else if dir = 1 then [⟨q, r, 0⟩, ⟨q, r, 1⟩, ⟨q + 1, r - 1, 2⟩]
  else if dir = 2 then [⟨q, r, 1⟩, ⟨q, r, 2⟩, ⟨q + 1, r, 3⟩]
  else if dir = 3 then [⟨q, r, 2⟩, ⟨q, r, 3⟩, ⟨q, r + 1, 4⟩]
  else if dir = 4 then [⟨q, r, 3⟩, ⟨q, r, 4⟩, ⟨q - 1, r + 1, 5⟩]
  else if dir = 5 then [⟨q, r, 4⟩, ⟨q, r, 5⟩, ⟨q - 1, r, 0⟩]
  else []

/-- Lexicographic order used by the source sort comparator
`(a, b) => a.q - b.q || a.r - b.r || a.dir - b.dir`. -/
def ekeyLe (a b : EKey) : Bool :=
  if a.q ≠ b.q then decide (a.q < b.q)
  else if a.r ≠ b.r then decide (a.r < b.r)
  else decide (a.dir ≤ b.dir)

/-- The canonical representative of an edge: the equivalence list sorted by the
comparator, first element.  For the 1- or 2-element lists produced by
`getEquivalentEdges` this is the least element. -/
def getCanonicalEdgeKey (e : EKey) : EKey :=
  match getEquivalentEdges e.q e.r e.dir with
  | [] => e
  | [a] => a
  | a :: b :: _ => if ekeyLe a b then a else b

/-- `getVertexEdges`: all (3) edges adjacent to a vertex, aggregated over the
equivalent vertex representations and deduplicated by canonical edge key;
returns the first-seen original keys in first-seen order. -/
def getVertexEdges (v : VKey) : List EKey :=
  let equivalentVertices := getEquivalentVertices v.q v.r v.dir
  let step := fun (st : List EKey × List EKey) (e : EKey) =>
    let c := getCanonicalEdgeKey e
    if c ∈ st.1 then st else (c :: st.1, st.2 ++ [e])
  (equivalentVertices.foldl (fun st w => (getVertexEdgesFromHex w.q w.r w.dir).foldl step st)
    ([], [])).2

/-- `getEdgeVertices`: the two end vertices of an edge (empty for a direction
outside 0-5). -/
def getEdgeVertices (q r : Int) (dir : Nat) : List VKey :=
  if dir = 0 then [⟨q, r, 0⟩, ⟨q, r, 1⟩]
  else if dir = 1 then [⟨q, r, 1⟩, ⟨q, r, 2⟩]
  else if dir = 2 then [⟨q, r, 2⟩, ⟨q, r, 3⟩]
  else if dir = 3 then [⟨q, r, 3⟩, ⟨q, r, 4⟩]
  else if dir = 4 then [⟨q, r, 4⟩, ⟨q, r, 5⟩]
  else if dir = 5 then [⟨q, r, 5⟩, ⟨q, r, 0⟩]
  else []

/-- `getAdjacentHexesToVertex`: the up-to-3 hex coordinates sharing a vertex. -/
def getAdjacentHexesToVertex (q r : Int) (dir : Nat) : List HexCoord :=
  ⟨q, r⟩ ::
    (if dir = 0 then [⟨q, r - 1⟩, ⟨q + 1, r - 1⟩]
     else if dir = 1 then [⟨q + 1, r - 1⟩, ⟨q + 1, r⟩]
     else if dir = 2 then [⟨q + 1, r⟩, ⟨q, r + 1⟩]
     else if dir = 3 then [⟨q, r + 1⟩, ⟨q - 1, r + 1⟩]
     else if dir = 4 then [⟨q - 1, r + 1⟩, ⟨q - 1, r⟩]
     else if dir = 5 then [⟨q - 1, r⟩, ⟨q, r - 1⟩]
     else [])

/-! ### Geometry (source lines 401-493), in exact arithmetic

The source computes, with `HEX_SIZE = 50` and floating point arithmetic,
`x = 50 * sqrt 3 * (q + r/2) + 50 * cos angle` and
`y = 75 * r - 50 * sin angle` with `angle ∈ {90, 30, -30, -90, -150, 150}`
degrees.  Exactly, `x = 25 * sqrt 3 * A` and `y = 25 * B` for the integers
`A = 2q + r + cosPart dir` and `B = 3r - sinPart2 dir` below, so the squared
distance between two vertices is `625 * (3 * dA^2 + dB^2)`.  The tolerance
checks `|dist - 50| < 1` and `dist < 1` of the source are therefore exactly
`2401 < 625*m < 2601` and `625*m < 1` for the integer `m = 3 dA^2 + dB^2`
(the floating point error of the source computation is many orders of
magnitude below the slack of these thresholds on every integer input). -/

/-- `2 * cos angle` is `0, sqrt 3, sqrt 3, 0, -sqrt 3, -sqrt 3`: the integer
coefficient of `25 * sqrt 3` contributed to `x` by the vertex corner. -/
def cosPart : Nat → Int
  | 0 => 0
  | 1 => 1
  | 2 => 1
  | 3 => 0
  | 4 => -1
  | 5 => -1
  | _ => 0

/-- `2 * sin angle`, i.e. `2, 1, -1, -2, -1, 1` for directions 0-5. -/
def sinPart2 : Nat → Int
  | 0 => 2
  | 1 => 1
  | 2 => -1
  | 3 => -2
  | 4 => -1
  | 5 => 1
  | _ => 0

/-- `getVertexPixelPosition` in exact scaled coordinates: the returned pair
`(A, B)` stands for the pixel position `(25 * sqrt 3 * A, 25 * B)`. -/
def getVertexPixelPosition (q r : Int) (dir : Nat) : Int × Int :=
  (2 * q + r + cosPart dir, 3 * r - sinPart2 dir)

/-- Squared distance between two vertex positions, divided by 625:
`m` such that the source distance is `25 * sqrt m`. -/
def pixelDistM (v1 v2 : VKey) : Int :=
  let p1 := getVertexPixelPosition v1.q v1.r v1.dir
  let p2 := getVertexPixelPosition v2.q v2.r v2.dir
  3 * (p1.1 - p2.1) ^ 2 + (p1.2 - p2.2) ^ 2

/-- `areVerticesAdjacent`: the source check `|dist - 50| < 1` in exact form. -/
def areVerticesAdjacent (v1 v2 : VKey) : Bool :=
  decide (2401 < 625 * pixelDistM v1 v2) && decide (625 * pixelDistM v1 v2 < 2601)

/-- `areVerticesAtSamePosition`: the source check `dist < 1` in exact form. -/
def areVerticesAtSamePosition (v1 v2 : VKey) : Bool :=
  decide (625 * pixelDistM v1 v2 < 1)

/-! ### Game state (source lines 701-828) -/

/-- One hex tile (display colour omitted). -/
structure Hex where
  q : Int
  r : Int
  terrain : Terrain
  resource : Option Res
  number : Option Int
deriving DecidableEq, Repr

/-- One vertex slot: `{ building: null, owner: null }` when empty. -/
structure Vertex where
  building : Option Building
  owner : Option Nat
deriving DecidableEq, Repr

/-- One edge slot: `{ road: false, owner: null }` when empty. -/
structure Edge where
  road : Bool
  owner : Option Nat
deriving DecidableEq, Repr

/-- A port: its two access vertices and its trade terms (`ratio`, `resource`
spread from `PORT_TYPES`; display name and icon omitted). -/
structure Port where
  id : Nat
  vertices : List VKey
  ratio : Nat
  resource : Option Res
deriving DecidableEq, Repr

/-- A player (display colour omitted). -/
structure Player where
  id : String
  name : String
  turnOrder : Option Nat
  resources : Resources
  developmentCards : List DevCard
  newDevCards : List DevCard
  knightsPlayed : Nat
  victoryPoints : Int
  hiddenVictoryPoints : Int
  settlements : Int
  cities : Int
  roads : Int
  hasLongestRoad : Bool
  hasLargestArmy : Bool
  roadLength : Nat
deriving DecidableEq, Repr

/-- The fresh player record built by `createGame`/`addPlayer`. -/
def freshPlayer (id name : String) : Player :=
  { id := id, name := name, turnOrder := none, resources := zeroRes,
    developmentCards := [], newDevCards := [], knightsPlayed := 0,
    victoryPoints := 0, hiddenVictoryPoints := 0, settlements := 5,
    cities := 4, roads := 15, hasLongestRoad := false, hasLargestArmy := false,
    roadLength := 0 }

/-- Default player used to model a JS out-of-range `players[i]` access (which
would crash the source; every state this development evaluates keeps indices
in range). -/
def dummyPlayer : Player := freshPlayer "" ""

/-- A pending player-to-player trade offer.  `offer` and `request` are the
entry lists of the JS objects sent by the client; `declined` is the set of
player ids recorded in `responses` (the source only ever stores the value
`decline` in it). -/
structure TradeOffer where
  from_ : Nat
  offer : List (Res × Int)
  request : List (Res × Int)
  declined : List String
deriving DecidableEq, Repr

/-- One discard obligation after a roll of 7. -/
structure DiscardInfo where
  playerIndex : Nat
  cardsToDiscard : Int
deriving DecidableEq, Repr

/-- The game aggregate. -/
structure Game where
  id : String
  phase : Phase
  setupPhase : Nat
  currentPlayerIndex : Nat
  turnPhase : TurnPhase
  isExtended : Bool
  maxPlayers : Nat
  enableSpecialBuild : Bool
  specialBuildingPhase : Bool
  specialBuildIndex : Nat
  ports : List Port
  players : List Player
  hexes : List (HexCoord × Hex)
  vertices : List (VKey × Vertex)
  edges : List (EKey × Edge)
  robber : Option HexCoord
  devCardDeck : List DevCard
  longestRoadPlayer : Option Nat
  longestRoadLength : Nat
  largestArmyPlayer : Option Nat
  largestArmySize : Nat
  diceRoll : Option (Nat × Nat × Nat)
  winner : Option String
  tradeOffer : Option TradeOffer
  discardingPlayers : List DiscardInfo
  freeRoads : Int
  yearOfPlentyPicks : Int
  devCardPlayedThisTurn : Bool
  hasRolledThisTurn : Bool
deriving DecidableEq, Repr

/-- `game.players.findIndex(p => p.id === playerId)`, with the JS `-1` result. -/
def findIndexI (players : List Player) (playerId : String) : Int :=
  match players.findIdx? (fun p => p.id = playerId) with
  | some i => (i : Int)
  | none => -1

/-! ### Board layout constants (source lines 90-213) -/

def HEX_POSITIONS_STANDARD : List HexCoord :=
  [⟨0, -2⟩, ⟨1, -2⟩, ⟨2, -2⟩,
   ⟨-1, -1⟩, ⟨0, -1⟩, ⟨1, -1⟩, ⟨2, -1⟩,
   ⟨-2, 0⟩, ⟨-1, 0⟩, ⟨0, 0⟩, ⟨1, 0⟩, ⟨2, 0⟩,
   ⟨-2, 1⟩, ⟨-1, 1⟩, ⟨0, 1⟩, ⟨1, 1⟩,
   ⟨-2, 2⟩, ⟨-1, 2⟩, ⟨0, 2⟩]

def HEX_POSITIONS_EXTENDED : List HexCoord :=
  [⟨0, -3⟩, ⟨1, -3⟩, ⟨2, -3⟩,
   ⟨-1, -2⟩, ⟨0, -2⟩, ⟨1, -2⟩, ⟨2, -2⟩,
   ⟨-2, -1⟩, ⟨-1, -1⟩, ⟨0, -1⟩, ⟨1, -1⟩, ⟨2, -1⟩,
   ⟨-3, 0⟩, ⟨-2, 0⟩, ⟨-1, 0⟩, ⟨0, 0⟩, ⟨1, 0⟩, ⟨2, 0⟩,
   ⟨-3, 1⟩, ⟨-2, 1⟩, ⟨-1, 1⟩, ⟨0, 1⟩, ⟨1, 1⟩,
   ⟨-3, 2⟩, ⟨-2, 2⟩, ⟨-1, 2⟩, ⟨0, 2⟩,
   ⟨-3, 3⟩, ⟨-2, 3⟩, ⟨-1, 3⟩]

def TERRAIN_DISTRIBUTION_STANDARD : List Terrain :=
  [Terrain.hills, Terrain.hills, Terrain.hills,
   Terrain.forest, Terrain.forest, Terrain.forest, Terrain.forest,
   Terrain.pasture, Terrain.pasture, Terrain.pasture, Terrain.pasture,
   Terrain.fields, Terrain.fields, Terrain.fields, Terrain.fields,
   Terrain.mountains, Terrain.mountains, Terrain.mountains,
   Terrain.desert]

def TERRAIN_DISTRIBUTION_EXTENDED : List Terrain :=
  [Terrain.hills, Terrain.hills, Terrain.hills, Terrain.hills, Terrain.hills,
   Terrain.forest, Terrain.forest, Terrain.forest, Terrain.forest, Terrain.forest, Terrain.forest,
   Terrain.pasture, Terrain.pasture, Terrain.pasture, Terrain.pasture, Terrain.pasture, Terrain.pasture,
   Terrain.fields, Terrain.fields, Terrain.fields, Terrain.fields, Terrain.fields, Terrain.fields,
   Terrain.mountains, Terrain.mountains, Terrain.mountains, Terrain.mountains, Terrain.mountains,
   Terrain.desert, Terrain.desert]

def NUMBER_TOKENS_STANDARD : List Int :=
  [2, 3, 3, 4, 4, 5, 5, 6, 6, 8, 8, 9, 9, 10, 10, 11, 11, 12]

def NUMBER_TOKENS_EXTENDED : List Int :=
  [2, 2, 3, 3, 3, 4, 4, 4, 5, 5, 5, 6, 6, 6,
   8, 8, 8, 9, 9, 9, 10, 10, 10, 11, 11, 11, 12, 12]

/-- The 25-card standard development deck (`DEV_CARD_DISTRIBUTION`). -/
def DEV_CARD_DISTRIBUTION : List DevCard :=
  List.replicate 14 DevCard.knight ++ List.replicate 5 DevCard.victoryPoint ++
  List.replicate 2 DevCard.roadBuilding ++ List.replicate 2 DevCard.yearOfPlenty ++
  List.replicate 2 DevCard.monopoly

/-- Port type data (ratio, resource) from `PORT_TYPES`. -/
def portTerms : String → Nat × Option Res
  | "GENERIC" => (3, none)
  | "BRICK" => (2, some Res.brick)
  | "LUMBER" => (2, some Res.lumber)
  | "WOOL" => (2, some Res.wool)
  | "GRAIN" => (2, some Res.grain)
  | "ORE" => (2, some Res.ore)
  | _ => (3, none)

def PORT_POSITIONS_STANDARD : List (List VKey × String) :=
  [([⟨0, -2, 0⟩, ⟨0, -2, 5⟩], "GENERIC"),
   ([⟨1, -2, 0⟩, ⟨1, -2, 1⟩], "GRAIN"),
   ([⟨2, -2, 1⟩, ⟨2, -2, 2⟩], "ORE"),
   ([⟨2, -1, 2⟩, ⟨2, 0, 1⟩], "GENERIC"),
   ([⟨2, 0, 2⟩, ⟨2, 0, 3⟩], "WOOL"),
   ([⟨1, 1, 2⟩, ⟨1, 1, 3⟩], "GENERIC"),
   ([⟨0, 2, 3⟩, ⟨0, 2, 4⟩], "GENERIC"),
   ([⟨-2, 2, 3⟩, ⟨-2, 2, 4⟩], "BRICK"),
   ([⟨-2, 0, 4⟩, ⟨-2, 0, 5⟩], "LUMBER")]

def PORT_POSITIONS_EXTENDED : List (List VKey × String) :=
  [([⟨0, -3, 0⟩, ⟨0, -3, 5⟩], "GENERIC"),
   ([⟨1, -3, 0⟩, ⟨1, -3, 1⟩], "GRAIN"),
   ([⟨2, -3, 1⟩, ⟨2, -3, 2⟩], "ORE"),
   ([⟨2, -2, 2⟩, ⟨2, -1, 1⟩], "GENERIC"),
   ([⟨2, -1, 2⟩, ⟨2, 0, 1⟩], "WOOL"),
   ([⟨2, 0, 2⟩, ⟨1, 1, 1⟩], "GENERIC"),
   ([⟨0, 2, 2⟩, ⟨0, 2, 3⟩], "BRICK"),
   ([⟨-1, 3, 3⟩, ⟨-2, 3, 2⟩], "GENERIC"),
   ([⟨-3, 3, 3⟩, ⟨-3, 3, 4⟩], "LUMBER"),
   ([⟨-3, 2, 4⟩, ⟨-3, 1, 3⟩], "GENERIC"),
   ([⟨-3, 0, 4⟩, ⟨-3, 0, 5⟩], "GENERIC")]

/-! ### Fisher-Yates shuffle (source lines 219-227)

`shuffle` swaps position `i` (from `n-1` down to `1`) with position
`Math.floor(Math.random() * (i + 1))`.  The random draws are the explicit
list `js`, consumed in order and reduced modulo `i + 1` (the source draw is
uniform on `[0, i]`; the modulo makes the model total while producing exactly
the same set of possible outcomes). -/

/-- Swap two positions of a list (identity when either index is out of range,
which never happens for in-range draws). -/
def swapAt {α : Type} (l : List α) (i j : Nat) : List α :=
  match l.get? i, l.get? j with
  | some a, some b => (l.set i b).set j a
  | _, _ => l

def shuffleGo {α : Type} (l : List α) (i : Nat) (js : List Nat) : List α :=
  match i, js with
  | 0, _ => l
  | _ + 1, [] => l
  | i + 1, j :: rest => shuffleGo (swapAt l (i + 1) (j % (i + 2))) i rest

/-- `shuffle(array)` with the random draws `js` made explicit. -/
def shuffle {α : Type} (l : List α) (js : List Nat) : List α :=
  shuffleGo l (l.length - 1) js

/-! ### createGame / addPlayer / startGame / shuffleBoard (source lines 705-934) -/

/-- The hex map built by `createGame`/`shuffleBoard` (assigning into `init`):
terrain assigned in position order, number tokens consumed in position order
skipping desert.  Returns the map in insertion order together with the desert
hex key (the last desert position, as the source overwrites `desertHex`). -/
def buildHexes (init : List (HexCoord × Hex)) (positions : List HexCoord)
    (terrain : List Terrain) (numbers : List Int) :
    List (HexCoord × Hex) × Option HexCoord :=
  let step := fun (st : List (HexCoord × Hex) × Option HexCoord × Nat) (pi : HexCoord × Nat) =>
    let (pos, i) := pi
    let t := terrain.getD i Terrain.desert
    let hex : Hex :=
      { q := pos.q, r := pos.r, terrain := t, resource := t.resource,
        number := if t = Terrain.desert then none else some (numbers.getD st.2.2 0) }
    let nextNum := if t = Terrain.desert then st.2.2 else st.2.2 + 1
    let desert := if t = Terrain.desert then some pos else st.2.1
    (aset st.1 pos hex, desert, nextNum)
  let fin := ((enumFrom 0 positions).map (fun x => (x.2, x.1))).foldl step (init, none, 0)
  (fin.1, fin.2.1)

/-- Pre-allocation of every vertex and edge of every hex
(`if (!vertices[vKey]) vertices[vKey] = ...`). -/
def buildSlots (hexes : List (HexCoord × Hex)) :
    List (VKey × Vertex) × List (EKey × Edge) :=
  hexes.foldl
    (fun st (h : HexCoord × Hex) =>
      (List.range 6).foldl
        (fun (st : List (VKey × Vertex) × List (EKey × Edge)) dir =>
          let vk : VKey := ⟨h.2.q, h.2.r, dir⟩
          let vs := match alookup st.1 vk with
            | some _ => st.1
            | none => aset st.1 vk { building := none, owner := none }
          let ek : EKey := ⟨h.2.q, h.2.r, dir⟩
          let es := match alookup st.2 ek with
            | some _ => st.2
            | none => aset st.2 ek { road := false, owner := none }
          (vs, es))
        st)
    ([], [])

/-- The port list built from a port position table. -/
def buildPorts (table : List (List VKey × String)) : List Port :=
  (enumFrom 0 table).map (fun x =>
    { id := x.1, vertices := x.2.1, ratio := (portTerms x.2.2).1,
      resource := (portTerms x.2.2).2 })

/-- `createGame`.  The three `js` lists are the random draws of the three
shuffles (terrain, number tokens, development deck). -/
def createGame (gameId : String) (hostId hostName : String)
    (isExtended : Bool) (enableSpecialBuild : Bool)
    (jsTerrain jsNumbers jsDeck : List Nat) : Game :=
  let HEX_POSITIONS := if isExtended then HEX_POSITIONS_EXTENDED else HEX_POSITIONS_STANDARD
  let TERRAIN_DISTRIBUTION :=
    if isExtended then TERRAIN_DISTRIBUTION_EXTENDED else TERRAIN_DISTRIBUTION_STANDARD
  let NUMBER_TOKENS := if isExtended then NUMBER_TOKENS_EXTENDED else NUMBER_TOKENS_STANDARD
  let PORT_POSITIONS := if isExtended then PORT_POSITIONS_EXTENDED else PORT_POSITIONS_STANDARD
  let devCards :=
    if isExtended then DEV_CARD_DISTRIBUTION ++ DEV_CARD_DISTRIBUTION.take 9
    else DEV_CARD_DISTRIBUTION
  let shuffledTerrain := shuffle TERRAIN_DISTRIBUTION jsTerrain
  let shuffledNumbers := shuffle NUMBER_TOKENS jsNumbers
  let hx := buildHexes [] HEX_POSITIONS shuffledTerrain shuffledNumbers
  let slots := buildSlots hx.1
  { id := gameId, phase := Phase.waiting, setupPhase := 0, currentPlayerIndex := 0,
    turnPhase := TurnPhase.roll, isExtended := isExtended,
    maxPlayers := if isExtended then 6 else 4,
    enableSpecialBuild := enableSpecialBuild, specialBuildingPhase := false,
    specialBuildIndex := 0, ports := buildPorts PORT_POSITIONS,
    players := [freshPlayer hostId hostName],
    hexes := hx.1, vertices := slots.1, edges := slots.2, robber := hx.2,
    devCardDeck := shuffle devCards jsDeck, longestRoadPlayer := none,
    longestRoadLength := 4, largestArmyPlayer := none, largestArmySize := 2,
    diceRoll := none, winner := none, tradeOffer := none, discardingPlayers := [],
    freeRoads := 0, yearOfPlentyPicks := 0, devCardPlayedThisTurn := false,
    hasRolledThisTurn := false }

/-- Simple success/failure result. -/
structure ActionResult where
  success : Bool
  error : Option GameError
deriving DecidableEq, Repr

def okResult : ActionResult := ⟨true, none⟩

def errResult (e : GameError) : ActionResult := ⟨false, some e⟩

/-- `addPlayer`. -/
def addPlayer (g : Game) (pid pname : String) : Game × ActionResult :=
  if g.players.length ≥ g.maxPlayers then (g, errResult GameError.gameFull)
  else if g.phase ≠ Phase.waiting then (g, errResult GameError.gameAlreadyStarted)
  else ({ g with players := g.players ++ [freshPlayer pid pname] }, okResult)

/-- `startGame`, with the random draws of the turn-order shuffle explicit. -/
def startGame (g : Game) (js : List Nat) : Game × ActionResult :=
  if g.players.length < 2 then (g, errResult GameError.needTwoPlayers)
  else
    let playerOrder := shuffle (List.range g.players.length) js
    let reorderedPlayers := (enumFrom 0 playerOrder).map (fun x =>
      { g.players.getD x.2 dummyPlayer with turnOrder := some (x.1 + 1) })
    ({ g with
        players := reorderedPlayers
        phase := Phase.setup
        setupPhase := 0
        currentPlayerIndex := 0 }, okResult)

/-- `shuffleBoard`. -/
def shuffleBoard (g : Game) (jsTerrain jsNumbers : List Nat) : Game × ActionResult :=
  if g.phase ≠ Phase.waiting then (g, errResult GameError.shuffleAfterStart)
  else
    let TERRAIN_DISTRIBUTION :=
      if g.isExtended then TERRAIN_DISTRIBUTION_EXTENDED else TERRAIN_DISTRIBUTION_STANDARD
    let NUMBER_TOKENS := if g.isExtended then NUMBER_TOKENS_EXTENDED else NUMBER_TOKENS_STANDARD
    let HEX_POSITIONS := if g.isExtended then HEX_POSITIONS_EXTENDED else HEX_POSITIONS_STANDARD
    let shuffledTerrain := shuffle TERRAIN_DISTRIBUTION jsTerrain
    let shuffledNumbers := shuffle NUMBER_TOKENS jsNumbers
    let hx := buildHexes g.hexes HEX_POSITIONS shuffledTerrain shuffledNumbers
    ({ g with hexes := hx.1, robber := hx.2 }, okResult)

/-! ### Building and road lookup (source lines 356-563) -/

/-- `hasPlayerBuildingAtVertex`: the given player owns a building at the
vertex, checked across all equivalent keys. -/
def hasPlayerBuildingAtVertex (g : Game) (vk : VKey) (playerIndex : Nat) : Bool :=
  (getEquivalentVertices vk.q vk.r vk.dir).any (fun eq2 =>
    match alookup g.vertices eq2 with
    | some vert => decide (vert.owner = some playerIndex) && vert.building.isSome
    | none => false)

/-- `hasBuildingAtVertex`: any building at the vertex, across equivalents. -/
def hasBuildingAtVertex (g : Game) (vk : VKey) : Bool :=
  (getEquivalentVertices vk.q vk.r vk.dir).any (fun eq2 =>
    match alookup g.vertices eq2 with
    | some vert => vert.building.isSome
    | none => false)

/-- `hasAdjacentBuilding`: scan every built vertex slot, skip equivalents of
the queried vertex by physical position, detect one at edge distance. -/
def hasAdjacentBuilding (g : Game) (vk : VKey) : Bool :=
  g.vertices.any (fun (e : VKey × Vertex) =>
    e.2.building.isSome &&
    !areVerticesAtSamePosition vk e.1 &&
    areVerticesAdjacent vk e.1)

/-- Result of `findBuildingAtHexVertex`: owner, building type and the actual
key the building was found under. -/
structure BuildingInfo where
  owner : Option Nat
  btype : Building
  vertexKey : VKey
deriving DecidableEq, Repr

/-- `findBuildingAtHexVertex`: first equivalent key of hex vertex
`(q, r, dir)` holding a building. -/
def findBuildingAtHexVertex (g : Game) (q r : Int) (dir : Nat) : Option BuildingInfo :=
  (getEquivalentVertices q r dir).foldr
    (fun eq2 acc =>
      match alookup g.vertices eq2 with
      | some vert =>
        match vert.building with
        | some b => some { owner := vert.owner, btype := b, vertexKey := eq2 }
        | none => acc
      | none => acc)
    none

/-- Result of `hasRoadAtEdge`. -/
structure RoadInfo where
  owner : Option Nat
  key : EKey
deriving DecidableEq, Repr

/-- `hasRoadAtEdge`: the road on an edge, found across equivalent keys. -/
def hasRoadAtEdge (g : Game) (ek : EKey) : Option RoadInfo :=
  (getEquivalentEdges ek.q ek.r ek.dir).foldr
    (fun eq2 acc =>
      match alookup g.edges eq2 with
      | some edge => if edge.road then some { owner := edge.owner, key := eq2 } else acc
      | none => acc)
    none

/-- `hasPlayerRoadAtEdge`. -/
def hasPlayerRoadAtEdge (g : Game) (ek : EKey) (playerIndex : Nat) : Bool :=
  match hasRoadAtEdge g ek with
  | some info => decide (info.owner = some playerIndex)
  | none => false

/-- `hasOpponentBuildingAtVertex` (breaks road continuity). -/
def hasOpponentBuildingAtVertex (g : Game) (vk : VKey) (playerIndex : Nat) : Bool :=
  (getEquivalentVertices vk.q vk.r vk.dir).any (fun eq2 =>
    match alookup g.vertices eq2 with
    | some vert => vert.building.isSome && decide (vert.owner ≠ some playerIndex)
    | none => false)

/-! ### Helper functions (source lines 1938-1957) -/

/-- `BUILDING_COSTS`, as the `Object.entries` lists of the cost objects. -/
def roadCost : List (Res × Int) := [(Res.brick, 1), (Res.lumber, 1)]

def settlementCost : List (Res × Int) :=
  [(Res.brick, 1), (Res.lumber, 1), (Res.wool, 1), (Res.grain, 1)]

def cityCost : List (Res × Int) := [(Res.ore, 3), (Res.grain, 2)]

def devCardCost : List (Res × Int) := [(Res.ore, 1), (Res.grain, 1), (Res.wool, 1)]

/-- `hasResources`. -/
def hasResources (p : Player) (costs : List (Res × Int)) : Bool :=
  costs.all (fun c => decide (c.2 ≤ p.resources.get c.1))

/-- `deductResources`. -/
def deductResources (p : Player) (costs : List (Res × Int)) : Player :=
  costs.foldl (fun p c => { p with resources := p.resources.add c.1 (-c.2) }) p

/-- Update one player of the list in place (out-of-range indices, a crash in
the source, leave the list unchanged). -/
def setPlayer (players : List Player) (i : Nat) (f : Player → Player) : List Player :=
  players.set i (f (players.getD i dummyPlayer))

/-! ### Victory check (source lines 2199-2220) -/

/-- `checkWinner`: first player whose visible plus hidden points reach 10 ends
the game; everyone folds hidden points into the visible count. -/
def checkWinner (g : Game) : Game :=
  match g.players.find? (fun p => decide (10 ≤ p.victoryPoints + p.hiddenVictoryPoints)) with
  | none => g
  | some w =>
    { g with
        phase := Phase.finished
        winner := some w.id
        players := g.players.map (fun p =>
          { p with victoryPoints := p.victoryPoints + p.hiddenVictoryPoints,
                   hiddenVictoryPoints := 0 }) }

/-! ### Longest road (source lines 1959-2127) -/

/-- Backtracking depth-first search of `calculateRoadLength`, fuelled.  The
source restores its `visited` set on exit of each call, which is this purely
functional search; the recorded global maximum is the returned value. -/
def roadDfs (g : Game) (playerIndex : Nat) : Nat → EKey → Nat → List EKey → Nat
  | 0, _, _, _ => 0
  | fuel + 1, e, len, visited =>
    let c := getCanonicalEdgeKey e
    if c ∈ visited then 0
    else
      let visited' := c :: visited
      (getEdgeVertices e.q e.r e.dir).foldl
        (fun acc vk =>
          if hasOpponentBuildingAtVertex g vk playerIndex then acc
          else
            (getVertexEdges vk).foldl
              (fun acc2 adjEdge =>
                if getCanonicalEdgeKey adjEdge ∈ visited' then acc2
                else if hasPlayerRoadAtEdge g adjEdge playerIndex then
                  max acc2 (roadDfs g playerIndex fuel adjEdge (len + 1) visited')
                else acc2)
              acc)
        len

/-- `calculateRoadLength`: longest continuous road of one player. -/
def calculateRoadLength (g : Game) (playerIndex : Nat) : Nat :=
  let playerEdges := (g.edges.filter
    (fun (e : EKey × Edge) => e.2.road && decide (e.2.owner = some playerIndex))).map Prod.fst
  playerEdges.foldl
    (fun m e => max m (roadDfs g playerIndex (g.edges.length + 1) e 1 []))
    0

/-- `updateLongestRoad`. -/
def updateLongestRoad (g : Game) : Game :=
  let roadLengths := (enumFrom 0 g.players).map (fun x => (x.1, calculateRoadLength g x.1))
  let players1 := mapIdxFrom 0 (fun i p => { p with roadLength := calculateRoadLength g i })
    g.players
  let g1 := { g with players := players1 }
  let maxLength := (roadLengths.map Prod.snd).foldl max 0
  if maxLength < 5 then
    match g1.longestRoadPlayer with
    | none => g1
    | some holder =>
      let g2 := { g1 with
        players := (setPlayer g1.players holder
          (fun p => { p with hasLongestRoad := false, victoryPoints := p.victoryPoints - 2 }))
        longestRoadPlayer := none
        longestRoadLength := 4 }
      checkWinner g2
  else
    let playersWithMax := roadLengths.filter (fun x => decide (x.2 = maxLength))
    let currentHolderHasMax :=
      match g1.longestRoadPlayer with
      | some holder => decide ((g1.players.getD holder dummyPlayer).roadLength = maxLength)
      | none => false
    if currentHolderHasMax then
      { g1 with longestRoadLength := maxLength }
    else if playersWithMax.length = 1 then
      let newHolder := (playersWithMax.getD 0 (0, 0)).1
      let g2 :=
        match g1.longestRoadPlayer with
        | some holder =>
          { g1 with players := (setPlayer g1.players holder
              (fun p => { p with hasLongestRoad := false, victoryPoints := p.victoryPoints - 2 })) }
        | none => g1
      let g3 := { g2 with
        longestRoadPlayer := some newHolder
        longestRoadLength := maxLength
        players := (setPlayer g2.players newHolder
          (fun p => { p with hasLongestRoad := true, victoryPoints := p.victoryPoints + 2 })) }
      checkWinner g3
    else
      match g1.longestRoadPlayer with
      | some holder =>
        if 1 < playersWithMax.length then
          let g2 := { g1 with
            players := (setPlayer g1.players holder
              (fun p => { p with hasLongestRoad := false, victoryPoints := p.victoryPoints - 2 }))
            longestRoadPlayer := none
            longestRoadLength := maxLength }
          checkWinner g2
        else g1
      | none => g1

/-! ### Largest army (source lines 2129-2193) -/

/-- `updateLargestArmy`. -/
def updateLargestArmy (g : Game) : Game :=
  let maxKnights := (g.players.map Player.knightsPlayed).foldl max 0
  if maxKnights < 3 then g
  else
    let playersWithMax := ((enumFrom 0 g.players).map (fun x => (x.1, x.2.knightsPlayed))).filter
      (fun x => decide (x.2 = maxKnights))
    let currentHolderHasMax :=
      match g.largestArmyPlayer with
      | some holder => decide ((g.players.getD holder dummyPlayer).knightsPlayed = maxKnights)
      | none => false
    if currentHolderHasMax then
      { g with largestArmySize := maxKnights }
    else if playersWithMax.length = 1 then
      let newHolder := (playersWithMax.getD 0 (0, 0)).1
      let g2 :=
        match g.largestArmyPlayer with
        | some holder =>
          { g with players := (setPlayer g.players holder
              (fun p => { p with hasLargestArmy := false, victoryPoints := p.victoryPoints - 2 })) }
        | none => g
      let g3 := { g2 with
        largestArmyPlayer := some newHolder
        largestArmySize := maxKnights
        players := (setPlayer g2.players newHolder
          (fun p => { p with hasLargestArmy := true, victoryPoints := p.victoryPoints + 2 })) }
      checkWinner g3
    else
      match g.largestArmyPlayer with
      | some holder =>
        if 1 < playersWithMax.length then
          let g2 := { g with
            players := (setPlayer g.players holder
              (fun p => { p with hasLargestArmy := false, victoryPoints := p.victoryPoints - 2 }))
            largestArmyPlayer := none
            largestArmySize := maxKnights }
          checkWinner g2
        else g
      | none => g

/-! ### Resource distribution (source lines 991-1039) -/

/-- State threaded through the distribution loops: the player list, the gains
record keyed by player index, and the processed (hex, resolved-vertex) pairs. -/
structure DState where
  players : List Player
  gains : List (Nat × Resources)
  processed : List (HexCoord × VKey)
deriving Repr

/-- Credit `amt` of `res` to player `ow` in both the player list and the
gains record. -/
def creditAt (st : DState) (ow : Nat) (res : Res) (amt : Int) : DState :=
  { st with
      players := (setPlayer st.players ow
        (fun p => { p with resources := p.resources.add res amt }))
      gains := aset st.gains ow (((alookup st.gains ow).getD zeroRes).add res amt) }

/-- One direction of one hex inside `distributeResources`. -/
def distStepDir (g : Game) (hc : HexCoord) (hex : Hex) (st : DState) (dir : Nat) : DState :=
  match findBuildingAtHexVertex g hex.q hex.r dir with
  | none => st
  | some bi =>
    match bi.owner, hex.resource with
    | some ow, some res =>
      let pkey := (hc, bi.vertexKey)
      if pkey ∈ st.processed then st
      else
        creditAt { st with processed := pkey :: st.processed } ow res
          (if bi.btype = Building.city then 2 else 1)
    | _, _ => st

/-- One hex of `distributeResources`. -/
def distHex (g : Game) (roll : Int) (st : DState) (entry : HexCoord × Hex) : DState :=
  if entry.2.number = some roll ∧ g.robber ≠ some entry.1 then
    (List.range 6).foldl (distStepDir g entry.1 entry.2) st
  else st

/-- `distributeResources`: updated game and the per-player gains record. -/
def distributeResources (g : Game) (roll : Int) : Game × List (Nat × Resources) :=
  let init : DState :=
    ⟨g.players, (List.range g.players.length).map (fun i => (i, zeroRes)), []⟩
  let fin := g.hexes.foldl (distHex g roll) init
  ({ g with players := fin.players }, fin.gains)

/-! ### Turn actions (source lines 936-1146) -/

/-- Result of `rollDice`. -/
structure RollResult where
  success : Bool
  error : Option GameError
  roll : Option (Nat × Nat × Nat)
  resourceGains : Option (List (Nat × Resources))
deriving Repr

/-- `rollDice`, with the two random draws explicit
(`die = draw % 6 + 1` is the source `Math.floor(Math.random() * 6) + 1`). -/
def rollDice (g : Game) (playerId : String) (r1 r2 : Nat) : Game × RollResult :=
  let player := g.players.getD g.currentPlayerIndex dummyPlayer
  if player.id ≠ playerId then
    (g, ⟨false, some GameError.notYourTurn, none, none⟩)
  else if g.turnPhase ≠ TurnPhase.roll then
    (g, ⟨false, some GameError.cannotRollNow, none, none⟩)
  else
    let die1 := r1 % 6 + 1
    let die2 := r2 % 6 + 1
    let total := die1 + die2
    let g1 := { g with diceRoll := some (die1, die2, total), hasRolledThisTurn := true }
    if total = 7 then
      let playersToDiscard := (enumFrom 0 g1.players).filterMap (fun x =>
        if 7 < x.2.resources.total then
          some (DiscardInfo.mk x.1 (x.2.resources.total / 2))
        else none)
      if 0 < playersToDiscard.length then
        ({ g1 with turnPhase := TurnPhase.discard, discardingPlayers := playersToDiscard },
         ⟨true, none, g1.diceRoll, none⟩)
      else
        ({ g1 with turnPhase := TurnPhase.robber }, ⟨true, none, g1.diceRoll, none⟩)
    else
      let dres := distributeResources g1 (total : Int)
      ({ dres.1 with turnPhase := TurnPhase.main },
       ⟨true, none, g1.diceRoll, some dres.2⟩)

/-- `discardCards`.  `resources` is the entry list of the discarded multiset. -/
def discardCards (g : Game) (playerId : String) (resources : List (Res × Int)) :
    Game × ActionResult :=
  match g.players.findIdx? (fun p => p.id = playerId) with
  | none => (g, errResult GameError.playerNotFound)
  | some playerIndex =>
    match g.discardingPlayers.find? (fun d => d.playerIndex = playerIndex) with
    | none => (g, errResult GameError.noDiscardNeeded)
    | some discardInfo =>
      let totalToDiscard := (resources.map Prod.snd).sum
      if totalToDiscard ≠ discardInfo.cardsToDiscard then
        (g, errResult GameError.mustDiscardExactly)
      else
        let player := g.players.getD playerIndex dummyPlayer
        if resources.any (fun e => player.resources.get e.1 < e.2) then
          (g, errResult GameError.notEnoughResource)
        else
          let players1 := setPlayer g.players playerIndex (fun p =>
            resources.foldl (fun p e => { p with resources := p.resources.add e.1 (-e.2) }) p)
          let discarding1 := g.discardingPlayers.filter (fun d => d.playerIndex ≠ playerIndex)
          let g1 := { g with players := players1, discardingPlayers := discarding1 }
          if discarding1.length = 0 then
            ({ g1 with turnPhase := TurnPhase.robber }, okResult)
          else (g1, okResult)

/-- The theft record returned by `moveRobber`. -/
structure StolenInfo where
  resource : Res
  thief : String
  victim : String
deriving DecidableEq, Repr

/-- Result of `moveRobber`. -/
structure RobberResult where
  success : Bool
  error : Option GameError
  stolenInfo : Option StolenInfo
deriving DecidableEq, Repr

/-- `moveRobber`, with the random victim-resource draw `k` explicit, reduced
modulo the number of non-zero resource kinds of the victim as in the source
`Math.floor(Math.random() * availableResources.length)`. -/
def moveRobber (g : Game) (playerId : String) (hk : HexCoord)
    (stealFromPlayerId : Option String) (k : Nat) : Game × RobberResult :=
  let player := g.players.getD g.currentPlayerIndex dummyPlayer
  if player.id ≠ playerId then (g, ⟨false, some GameError.notYourTurn, none⟩)
  else if g.turnPhase ≠ TurnPhase.robber then
    (g, ⟨false, some GameError.cannotMoveRobberNow, none⟩)
  else if (alookup g.hexes hk).isNone then (g, ⟨false, some GameError.invalidHex, none⟩)
  else if g.robber = some hk then (g, ⟨false, some GameError.robberSameHex, none⟩)
  else
    let g1 := { g with robber := some hk }
    let stealStep : Game × Option StolenInfo :=
      match stealFromPlayerId with
      | none => (g1, none)
      | some vid =>
        match g1.players.findIdx? (fun p => p.id = vid) with
        | none => (g1, none)
        | some victimIndex =>
          if victimIndex = g1.currentPlayerIndex then (g1, none)
          else
            let victim := g1.players.getD victimIndex dummyPlayer
            let availableResources :=
              (victim.resources.entries.filter (fun e => 0 < e.2)).map Prod.fst
            if availableResources.length = 0 then (g1, none)
            else
              let stolenResource :=
                availableResources.getD (k % availableResources.length) Res.brick
              let players1 := setPlayer g1.players victimIndex (fun p =>
                { p with resources := p.resources.add stolenResource (-1) })
              let players2 := setPlayer players1 g1.currentPlayerIndex (fun p =>
                { p with resources := p.resources.add stolenResource 1 })
              ({ g1 with players := players2 },
               some ⟨stolenResource, player.id, victim.id⟩)
    let g2 := stealStep.1
    ({ g2 with turnPhase := if g2.hasRolledThisTurn then TurnPhase.main else TurnPhase.roll },
     ⟨true, none, stealStep.2⟩)

/-! ### Building placement (source lines 1148-1451) -/

/-- Result of a validator (`{ valid, error }`). -/
structure ValidResult where
  valid : Bool
  error : Option GameError
deriving DecidableEq, Repr

/-- `canPlayerBuildNow` (source lines 1881-1897). -/
def canPlayerBuildNow (g : Game) (playerId : String) : Bool :=
  match g.players.findIdx? (fun p => p.id = playerId) with
  | none => false
  | some playerIndex =>
    (decide (g.currentPlayerIndex = playerIndex) && decide (g.turnPhase = TurnPhase.main)) ||
    (g.specialBuildingPhase && decide (g.specialBuildIndex = playerIndex))

/-- `canPlaceSettlement`. -/
def canPlaceSettlement (g : Game) (playerId : String) (vk : VKey) (isSetup : Bool) :
    ValidResult :=
  match g.players.findIdx? (fun p => p.id = playerId) with
  | none => ⟨false, some GameError.playerNotFound⟩
  | some playerIndex =>
    let player := g.players.getD playerIndex dummyPlayer
    match alookup g.vertices vk with
    | none => ⟨false, some GameError.invalidVertex⟩
    | some _ =>
      if hasBuildingAtVertex g vk then ⟨false, some GameError.locationOccupied⟩
      else if player.settlements ≤ 0 then ⟨false, some GameError.noSettlementsLeft⟩
      else if hasAdjacentBuilding g vk then ⟨false, some GameError.tooClose⟩
      else if !isSetup then
        let vertexEdges := getVertexEdges vk
        if !vertexEdges.any (fun ek => hasPlayerRoadAtEdge g ek playerIndex) then
          ⟨false, some GameError.mustConnectRoad⟩
        else if !hasResources player settlementCost then
          ⟨false, some GameError.notEnoughResources⟩
        else ⟨true, none⟩
      else ⟨true, none⟩

/-- `giveInitialResources`: one of each resource produced by the hexes sharing
the second setup settlement. -/
def giveInitialResources (g : Game) (vk : VKey) (playerIndex : Nat) : Game :=
  let adjacentHexes := getAdjacentHexesToVertex vk.q vk.r vk.dir
  { g with players := (setPlayer g.players playerIndex (fun p =>
      adjacentHexes.foldl
        (fun p hc =>
          match alookup g.hexes hc with
          | some hex =>
            match hex.resource with
            | some res => { p with resources := p.resources.add res 1 }
            | none => p
          | none => p)
        p)) }

/-- `placeSettlement`. -/
def placeSettlement (g : Game) (playerId : String) (vk : VKey) : Game × ActionResult :=
  let isSetup := g.phase = Phase.setup
  let validation := canPlaceSettlement g playerId vk isSetup
  if !validation.valid then (g, ⟨false, validation.error⟩)
  else
    match g.players.findIdx? (fun p => p.id = playerId) with
    | none => (g, errResult GameError.playerNotFound)
    | some playerIndex =>
      let g1 :=
        if !isSetup then
          { g with players := setPlayer g.players playerIndex (deductResources · settlementCost) }
        else g
      let g2 := { g1 with
        vertices := (aset g1.vertices vk
          { building := some Building.settlement, owner := some playerIndex })
        players := (setPlayer g1.players playerIndex (fun p =>
          { p with settlements := p.settlements - 1, victoryPoints := p.victoryPoints + 1 })) }
      let g3 :=
        if isSetup ∧ g2.setupPhase = 1 then giveInitialResources g2 vk playerIndex else g2
      (checkWinner g3, okResult)

/-- `canPlaceRoad`. -/
def canPlaceRoad (g : Game) (playerId : String) (ek : EKey) (isSetup : Bool)
    (lastSettlement : Option VKey) : ValidResult :=
  match g.players.findIdx? (fun p => p.id = playerId) with
  | none => ⟨false, some GameError.playerNotFound⟩
  | some playerIndex =>
    let player := g.players.getD playerIndex dummyPlayer
    match alookup g.edges ek with
    | none => ⟨false, some GameError.invalidEdge⟩
    | some _ =>
      if (hasRoadAtEdge g ek).isSome then ⟨false, some GameError.roadAlreadyExists⟩
      else if player.roads ≤ 0 then ⟨false, some GameError.noRoadsLeft⟩
      else
        let endVertices := getEdgeVertices ek.q ek.r ek.dir
        let connected :=
          match isSetup, lastSettlement with
          | true, some ls => endVertices.any (fun vk => areVerticesEqual vk ls)
          | _, _ =>
            if 0 < g.freeRoads then
              endVertices.any (fun vk =>
                hasPlayerBuildingAtVertex g vk playerIndex ||
                (getVertexEdges vk).any (fun ve => hasPlayerRoadAtEdge g ve playerIndex))
            else
              endVertices.any (fun vk =>
                hasPlayerBuildingAtVertex g vk playerIndex ||
                (getVertexEdges vk).any (fun ve =>
                  let isCurrentEdge := (getEquivalentEdges ve.q ve.r ve.dir).any
                    (fun eq2 => eq2 = ek)
                  if isCurrentEdge then false
                  else hasPlayerRoadAtEdge g ve playerIndex))
        if !connected then ⟨false, some GameError.mustConnectOwn⟩
        else if !isSetup ∧ g.freeRoads = 0 ∧ !hasResources player roadCost then
          ⟨false, some GameError.notEnoughResources⟩
        else ⟨true, none⟩

/-- `placeRoad`. -/
def placeRoad (g : Game) (playerId : String) (ek : EKey) (isSetup : Bool)
    (lastSettlement : Option VKey) : Game × ActionResult :=
  let validation := canPlaceRoad g playerId ek isSetup lastSettlement
  if !validation.valid then (g, ⟨false, validation.error⟩)
  else
    match g.players.findIdx? (fun p => p.id = playerId) with
    | none => (g, errResult GameError.playerNotFound)
    | some playerIndex =>
      let g1 :=
        if !isSetup ∧ g.freeRoads = 0 then
          { g with players := setPlayer g.players playerIndex (deductResources · roadCost) }
        else if 0 < g.freeRoads then { g with freeRoads := g.freeRoads - 1 }
        else g
      let g2 := { g1 with
        edges := aset g1.edges ek { road := true, owner := some playerIndex }
        players := (setPlayer g1.players playerIndex (fun p => { p with roads := p.roads - 1 })) }
      (updateLongestRoad g2, okResult)

/-- `upgradeToCity`. -/
def upgradeToCity (g : Game) (playerId : String) (vk : VKey) : Game × ActionResult :=
  match g.players.findIdx? (fun p => p.id = playerId) with
  | none => (g, errResult GameError.playerNotFound)
  | some playerIndex =>
    if !canPlayerBuildNow g playerId then (g, errResult GameError.cannotBuildNow)
    else
      let player := g.players.getD playerIndex dummyPlayer
      let vertex := alookup g.vertices vk
      if vertex.isNone ∨ (vertex.getD ⟨none, none⟩).building ≠ some Building.settlement ∨
          (vertex.getD ⟨none, none⟩).owner ≠ some playerIndex then
        (g, errResult GameError.noSettlementToUpgrade)
      else if player.cities ≤ 0 then (g, errResult GameError.noCitiesLeft)
      else if !hasResources player cityCost then (g, errResult GameError.notEnoughResources)
      else
        let g1 := { g with
          players := (setPlayer g.players playerIndex (fun p =>
            let p := deductResources p cityCost
            { p with settlements := p.settlements + 1, cities := p.cities - 1,
                     victoryPoints := p.victoryPoints + 1 }))
          vertices := (aset g.vertices vk
            { building := some Building.city, owner := some playerIndex }) }
        (checkWinner g1, okResult)

/-! ### Development cards (source lines 1453-1588) -/

/-- Result of `buyDevCard`. -/
structure BuyResult where
  success : Bool
  error : Option GameError
  card : Option DevCard
deriving DecidableEq, Repr

/-- `buyDevCard`: pops the last card of the deck into `newDevCards`. -/
def buyDevCard (g : Game) (playerId : String) : Game × BuyResult :=
  match g.players.findIdx? (fun p => p.id = playerId) with
  | none => (g, ⟨false, some GameError.playerNotFound, none⟩)
  | some playerIndex =>
    if !canPlayerBuildNow g playerId then (g, ⟨false, some GameError.cannotBuyNow, none⟩)
    else
      let player := g.players.getD playerIndex dummyPlayer
      if !hasResources player devCardCost then
        (g, ⟨false, some GameError.notEnoughResources, none⟩)
      else if g.devCardDeck.length = 0 then (g, ⟨false, some GameError.deckEmpty, none⟩)
      else
        let card := (g.devCardDeck.getLast?).getD DevCard.knight
        let g1 := { g with
          devCardDeck := g.devCardDeck.dropLast
          players := (setPlayer g.players playerIndex (fun p =>
            let p := deductResources p devCardCost
            { p with newDevCards := p.newDevCards ++ [card] })) }
        if card = DevCard.victoryPoint then
          let g2 := { g1 with
            players := (setPlayer g1.players playerIndex (fun p =>
              { p with hiddenVictoryPoints := p.hiddenVictoryPoints + 1 })) }
          (checkWinner g2, ⟨true, none, some card⟩)
        else (g1, ⟨true, none, some card⟩)

/-- `playDevCard`.  `resourceParam` is `params.resource` (used by monopoly). -/
def playDevCard (g : Game) (playerId : String) (cardType : DevCard)
    (resourceParam : Option Res) : Game × ActionResult :=
  match g.players.findIdx? (fun p => p.id = playerId) with
  | none => (g, errResult GameError.playerNotFound)
  | some playerIndex =>
    if g.currentPlayerIndex ≠ playerIndex then (g, errResult GameError.notYourTurn)
    else if g.devCardPlayedThisTurn then (g, errResult GameError.onlyOneDevCard)
    else
      let player := g.players.getD playerIndex dummyPlayer
      if cardType ∉ player.developmentCards then (g, errResult GameError.doNotHaveCard)
      else
        -- the card is removed before the card effect is dispatched
        let g1 := { g with
          players := (setPlayer g.players playerIndex (fun p =>
            { p with developmentCards := p.developmentCards.erase cardType })) }
        match cardType with
        | DevCard.knight =>
          let g2 := { g1 with
            players := (setPlayer g1.players playerIndex (fun p =>
              { p with knightsPlayed := p.knightsPlayed + 1 }))
            turnPhase := TurnPhase.robber }
          let g3 := updateLargestArmy g2
          ({ g3 with devCardPlayedThisTurn := true }, okResult)
        | DevCard.roadBuilding =>
          let g2 := { g1 with
            freeRoads := min 2 (g1.players.getD playerIndex dummyPlayer).roads }
          ({ g2 with devCardPlayedThisTurn := true }, okResult)
        | DevCard.yearOfPlenty =>
          ({ g1 with yearOfPlentyPicks := 2, devCardPlayedThisTurn := true }, okResult)
        | DevCard.monopoly =>
          match resourceParam with
          | none => (g1, errResult GameError.mustSpecifyResource)
          | some res =>
            let totalStolen := ((enumFrom 0 g1.players).map (fun x =>
              if x.1 ≠ playerIndex then x.2.resources.get res else 0)).sum
            let players1 := mapIdxFrom 0 (fun i p =>
              if i ≠ playerIndex then { p with resources := p.resources.set res 0 } else p)
              g1.players
            let players2 := setPlayer players1 playerIndex (fun p =>
              { p with resources := p.resources.add res totalStolen })
            ({ g1 with players := players2, devCardPlayedThisTurn := true }, okResult)
        | DevCard.victoryPoint => (g1, errResult GameError.vpCardUnplayable)

/-- `yearOfPlentyPick`. -/
def yearOfPlentyPick (g : Game) (playerId : String) (res : Res) : Game × ActionResult :=
  match g.players.findIdx? (fun p => p.id = playerId) with
  | none => (g, errResult GameError.playerNotFound)
  | some playerIndex =>
    if g.currentPlayerIndex ≠ playerIndex then (g, errResult GameError.notYourTurn)
    else if g.yearOfPlentyPicks ≤ 0 then (g, errResult GameError.noPicksRemaining)
    else
      ({ g with
          players := (setPlayer g.players playerIndex (fun p =>
            { p with resources := p.resources.add res 1 }))
          yearOfPlentyPicks := g.yearOfPlentyPicks - 1 }, okResult)

/-! ### Trading (source lines 1590-1778) -/

/-- JS loose comparison of a nullable owner against a possibly `-1` index. -/
def ownerEqI : Option Nat → Int → Bool
  | none, _ => false
  | some k, i => decide ((k : Int) = i)

/-- `getPlayerPorts`: ports where the player owns a building at any equivalent
representation of either port vertex.  `playerIndex` is `-1` for an unknown
requester, which matches no owner. -/
def getPlayerPorts (g : Game) (playerIndex : Int) : List Port :=
  g.ports.filter (fun port =>
    port.vertices.any (fun vk =>
      (getEquivalentVertices vk.q vk.r vk.dir).any (fun eq2 =>
        match alookup g.vertices eq2 with
        | some vert => vert.building.isSome && ownerEqI vert.owner playerIndex
        | none => false)))

/-- `getTradeRatio`: 2 with a matching specific port, 3 with a generic port,
else 4. -/
def getTradeRatio (g : Game) (playerIndex : Int) (res : Res) : Nat :=
  let ports := getPlayerPorts g playerIndex
  if ports.any (fun p => p.resource = some res) then 2
  else if ports.any (fun p => p.resource = none) then 3
  else 4

/-- `bankTrade`. -/
def bankTrade (g : Game) (playerId : String) (giveResource : Res) (giveAmount : Int)
    (getResource : Res) : Game × ActionResult :=
  match g.players.findIdx? (fun p => p.id = playerId) with
  | none => (g, errResult GameError.playerNotFound)
  | some playerIndex =>
    if g.currentPlayerIndex ≠ playerIndex then (g, errResult GameError.notYourTurn)
    else if g.turnPhase ≠ TurnPhase.main then (g, errResult GameError.cannotTradeNow)
    else
      let player := g.players.getD playerIndex dummyPlayer
      let requiredRatio := getTradeRatio g (playerIndex : Int) giveResource
      if giveAmount ≠ (requiredRatio : Int) then (g, errResult GameError.ratioMismatch)
      else if player.resources.get giveResource < giveAmount then
        (g, errResult GameError.notEnoughResources)
      else
        ({ g with players := (setPlayer g.players playerIndex (fun p =>
            { p with resources :=
                (p.resources.add giveResource (-giveAmount)).add getResource 1 })) },
         okResult)

/-- `proposeTrade`. -/
def proposeTrade (g : Game) (playerId : String) (offer request : List (Res × Int)) :
    Game × ActionResult :=
  match g.players.findIdx? (fun p => p.id = playerId) with
  | none => (g, errResult GameError.playerNotFound)
  | some playerIndex =>
    if g.currentPlayerIndex ≠ playerIndex then (g, errResult GameError.notYourTurn)
    else if g.turnPhase ≠ TurnPhase.main then (g, errResult GameError.cannotTradeNow)
    else
      let player := g.players.getD playerIndex dummyPlayer
      if offer.any (fun e => player.resources.get e.1 < e.2) then
        (g, errResult GameError.notEnoughResource)
      else
        ({ g with tradeOffer := some ⟨playerIndex, offer, request, []⟩ }, okResult)

/-- Result of `respondToTrade`. -/
structure TradeRespResult where
  success : Bool
  error : Option GameError
  traded : Bool
deriving DecidableEq, Repr

/-- `respondToTrade`: on accept, only the responder hand is validated; the
offered resources are moved without re-checking the offerer. -/
def respondToTrade (g : Game) (playerId : String) (accept : Bool) :
    Game × TradeRespResult :=
  match g.tradeOffer with
  | none => (g, ⟨false, some GameError.noTradeOffer, false⟩)
  | some offer =>
    match g.players.findIdx? (fun p => p.id = playerId) with
    | none => (g, ⟨false, some GameError.playerNotFound, false⟩)
    | some playerIndex =>
      if playerIndex = offer.from_ then
        (g, ⟨false, some GameError.cannotRespondOwnTrade, false⟩)
      else
        let player := g.players.getD playerIndex dummyPlayer
        if accept then
          if offer.request.any (fun e => player.resources.get e.1 < e.2) then
            (g, ⟨false, some GameError.notEnoughResource, false⟩)
          else
            let players1 := offer.offer.foldl
              (fun ps e =>
                let ps := setPlayer ps offer.from_ (fun p =>
                  { p with resources := p.resources.add e.1 (-e.2) })
                setPlayer ps playerIndex (fun p =>
                  { p with resources := p.resources.add e.1 e.2 }))
              g.players
            let players2 := offer.request.foldl
              (fun ps e =>
                let ps := setPlayer ps playerIndex (fun p =>
                  { p with resources := p.resources.add e.1 (-e.2) })
                setPlayer ps offer.from_ (fun p =>
                  { p with resources := p.resources.add e.1 e.2 }))
              players1
            ({ g with players := players2, tradeOffer := none }, ⟨true, none, true⟩)
        else
          let declined1 :=
            if playerId ∈ offer.declined then offer.declined else offer.declined ++ [playerId]
          let otherPlayers := (enumFrom 0 g.players).filter (fun x => x.1 ≠ offer.from_)
          let allDeclined := otherPlayers.all (fun x => x.2.id ∈ declined1)
          if allDeclined then ({ g with tradeOffer := none }, ⟨true, none, false⟩)
          else
            ({ g with tradeOffer := some { offer with declined := declined1 } },
             ⟨true, none, false⟩)

/-- `cancelTrade`. -/
def cancelTrade (g : Game) (playerId : String) : Game × ActionResult :=
  match g.tradeOffer with
  | none => (g, errResult GameError.noTradeOffer)
  | some offer =>
    if findIndexI g.players playerId ≠ (offer.from_ : Int) then
      (g, errResult GameError.onlyOffererCancels)
    else ({ g with tradeOffer := none }, okResult)

/-! ### Turn management (source lines 1780-1936) -/

/-- `endTurn`. -/
def endTurn (g : Game) (playerId : String) : Game × ActionResult :=
  let playerIndex := findIndexI g.players playerId
  if (g.currentPlayerIndex : Int) ≠ playerIndex then (g, errResult GameError.notYourTurn)
  else if g.phase = Phase.setup then (g, errResult GameError.completeSetupFirst)
  else if g.turnPhase ≠ TurnPhase.main then (g, errResult GameError.cannotEndTurnNow)
  else
    let idx := playerIndex.toNat
    let g1 := { g with
      players := (setPlayer g.players idx (fun p =>
        { p with developmentCards := p.developmentCards ++ p.newDevCards, newDevCards := [] }))
      tradeOffer := none
      freeRoads := 0
      yearOfPlentyPicks := 0
      devCardPlayedThisTurn := false
      hasRolledThisTurn := false }
    if g1.isExtended ∧ 4 < g1.players.length ∧ g1.enableSpecialBuild then
      let sbi := (idx + 1) % g1.players.length
      let sbi := if sbi = idx then (sbi + 1) % g1.players.length else sbi
      ({ g1 with specialBuildingPhase := true, specialBuildIndex := sbi,
                 turnPhase := TurnPhase.specialBuild }, okResult)
    else
      ({ g1 with
          currentPlayerIndex := (g1.currentPlayerIndex + 1) % g1.players.length
          turnPhase := TurnPhase.roll
          diceRoll := none }, okResult)

/-- `endSpecialBuild`. -/
def endSpecialBuild (g : Game) (playerId : String) : Game × ActionResult :=
  if !g.specialBuildingPhase then (g, errResult GameError.notInSpecialBuild)
  else
    let playerIndex := findIndexI g.players playerId
    if (g.specialBuildIndex : Int) ≠ playerIndex then
      (g, errResult GameError.notYourSpecialBuild)
    else
      let currentTurnPlayer := g.currentPlayerIndex
      let nextIndex := (playerIndex.toNat + 1) % g.players.length
      if nextIndex = currentTurnPlayer then
        ({ g with
            specialBuildingPhase := false
            specialBuildIndex := 0
            currentPlayerIndex := (currentTurnPlayer + 1) % g.players.length
            turnPhase := TurnPhase.roll
            diceRoll := none
            hasRolledThisTurn := false }, okResult)
      else ({ g with specialBuildIndex := nextIndex }, okResult)

/-- `advanceSetup`. -/
def advanceSetup (g : Game) (playerId : String) : Game × ActionResult :=
  let player := g.players.getD g.currentPlayerIndex dummyPlayer
  if player.id ≠ playerId then (g, errResult GameError.notYourTurn)
  else if g.phase ≠ Phase.setup then (g, errResult GameError.notInSetupPhase)
  else
    let numPlayers := g.players.length
    if g.setupPhase = 0 then
      if g.currentPlayerIndex < numPlayers - 1 then
        ({ g with currentPlayerIndex := g.currentPlayerIndex + 1 }, okResult)
      else ({ g with setupPhase := 1 }, okResult)
    else
      if 0 < g.currentPlayerIndex then
        ({ g with currentPlayerIndex := g.currentPlayerIndex - 1 }, okResult)
      else ({ g with phase := Phase.playing, turnPhase := TurnPhase.roll }, okResult)

/-! ### Player view (source lines 2222-2308) -/

/-- The `tradeRatios` object attached to a view. -/
structure TradeRatios where
  brick : Nat
  lumber : Nat
  wool : Nat
  grain : Nat
  ore : Nat
deriving DecidableEq, Repr

/-- A player as seen in a view: hidden collections are either shown in full
(`Sum.inl`) or collapsed to their count (`Sum.inr`), exactly as the source
replaces the field by a number. -/
structure ViewPlayer where
  id : String
  name : String
  turnOrder : Option Nat
  resources : Sum Resources Int
  developmentCards : Sum (List DevCard) Nat
  newDevCards : Sum (List DevCard) Nat
  knightsPlayed : Nat
  victoryPoints : Int
  hiddenVictoryPoints : Int
  settlements : Int
  cities : Int
  roads : Int
  hasLongestRoad : Bool
  hasLargestArmy : Bool
  roadLength : Nat
deriving DecidableEq, Repr

/-- The view of the aggregate sent to one player. -/
structure ViewGame where
  id : String
  phase : Phase
  setupPhase : Nat
  currentPlayerIndex : Nat
  turnPhase : TurnPhase
  isExtended : Bool
  maxPlayers : Nat
  enableSpecialBuild : Bool
  specialBuildingPhase : Bool
  specialBuildIndex : Nat
  ports : List Port
  players : List ViewPlayer
  hexes : List (HexCoord × Hex)
  vertices : List (VKey × Vertex)
  edges : List (EKey × Edge)
  robber : Option HexCoord
  devCardDeck : Nat
  longestRoadPlayer : Option Nat
  longestRoadLength : Nat
  largestArmyPlayer : Option Nat
  largestArmySize : Nat
  diceRoll : Option (Nat × Nat × Nat)
  winner : Option String
  tradeOffer : Option TradeOffer
  discardingPlayers : List DiscardInfo
  freeRoads : Int
  yearOfPlentyPicks : Int
  devCardPlayedThisTurn : Bool
  hasRolledThisTurn : Bool
  myIndex : Int
  myPorts : List Port
  tradeRatios : TradeRatios
deriving Repr

/-- `getPlayerView`. -/
def getPlayerView (g : Game) (playerId : String) : ViewGame :=
  let playerIndex := findIndexI g.players playerId
  let isGameOver := g.phase = Phase.finished
  { id := g.id, phase := g.phase, setupPhase := g.setupPhase,
    currentPlayerIndex := g.currentPlayerIndex, turnPhase := g.turnPhase,
    isExtended := g.isExtended, maxPlayers := g.maxPlayers,
    enableSpecialBuild := g.enableSpecialBuild,
    specialBuildingPhase := g.specialBuildingPhase,
    specialBuildIndex := g.specialBuildIndex, ports := g.ports,
    players := ((enumFrom 0 g.players).map (fun x =>
      let own := isGameOver ∨ (x.1 : Int) = playerIndex
      { id := x.2.id, name := x.2.name, turnOrder := x.2.turnOrder,
        resources :=
          if own then Sum.inl x.2.resources else Sum.inr x.2.resources.total,
        developmentCards :=
          if own then Sum.inl x.2.developmentCards
          else Sum.inr x.2.developmentCards.length,
        newDevCards :=
          if own then Sum.inl x.2.newDevCards else Sum.inr x.2.newDevCards.length,
        knightsPlayed := x.2.knightsPlayed, victoryPoints := x.2.victoryPoints,
        hiddenVictoryPoints := if own then x.2.hiddenVictoryPoints else 0,
        settlements := x.2.settlements, cities := x.2.cities, roads := x.2.roads,
        hasLongestRoad := x.2.hasLongestRoad, hasLargestArmy := x.2.hasLargestArmy,
        roadLength := x.2.roadLength })),
    hexes := g.hexes, vertices := g.vertices, edges := g.edges, robber := g.robber,
    devCardDeck := g.devCardDeck.length, longestRoadPlayer := g.longestRoadPlayer,
    longestRoadLength := g.longestRoadLength, largestArmyPlayer := g.largestArmyPlayer,
    largestArmySize := g.largestArmySize, diceRoll := g.diceRoll, winner := g.winner,
    tradeOffer := g.tradeOffer, discardingPlayers := g.discardingPlayers,
    freeRoads := g.freeRoads, yearOfPlentyPicks := g.yearOfPlentyPicks,
    devCardPlayedThisTurn := g.devCardPlayedThisTurn,
    hasRolledThisTurn := g.hasRolledThisTurn,
    myIndex := playerIndex, myPorts := getPlayerPorts g playerIndex,
    tradeRatios :=
      { brick := getTradeRatio g playerIndex Res.brick,
        lumber := getTradeRatio g playerIndex Res.lumber,
        wool := getTradeRatio g playerIndex Res.wool,
        grain := getTradeRatio g playerIndex Res.grain,
        ore := getTradeRatio g playerIndex Res.ore } }

/-- `getPlayersOnHex`: owners of buildings on a hex as found through
`findBuildingAtHexVertex`, deduplicated in insertion order, excluding
`excludePlayer`.  The JS set can hold `null` when a malformed vertex has a
building without an owner, hence the `Option Nat` elements. -/
def getPlayersOnHex (g : Game) (hk : HexCoord) (excludePlayer : Option Int) :
    List (Option Nat) :=
  match alookup g.hexes hk with
  | none => []
  | some hex =>
    (List.range 6).foldl
      (fun acc dir =>
        match findBuildingAtHexVertex g hex.q hex.r dir with
        | some bi =>
          let excluded :=
            match bi.owner, excludePlayer with
            | none, none => true
            | some k, some e => decide ((k : Int) = e)
            | _, _ => false
          if excluded then acc
          else if bi.owner ∈ acc then acc
          else acc ++ [bi.owner]
        | none => acc)
      []

/-! ### Reachability

A game state is reachable when it arises from a freshly created game through
some sequence of engine operations with some outcomes of the random draws.
Failing operations return the unchanged state, so closing over every
operation with arbitrary parameters is exact. -/

inductive Reachable : Game → Prop
  | init (gameId hostId hostName : String) (isExtended enableSpecialBuild : Bool)
      (jsTerrain jsNumbers jsDeck : List Nat) :
      Reachable (createGame gameId hostId hostName isExtended enableSpecialBuild
        jsTerrain jsNumbers jsDeck)
  | addPlayer {g : Game} (pid pname : String) :
      Reachable g → Reachable (addPlayer g pid pname).1
  | startGame {g : Game} (js : List Nat) :
      Reachable g → Reachable (startGame g js).1
  | shuffleBoard {g : Game} (jsTerrain jsNumbers : List Nat) :
      Reachable g → Reachable (shuffleBoard g jsTerrain jsNumbers).1
  | rollDice {g : Game} (pid : String) (r1 r2 : Nat) :
      Reachable g → Reachable (rollDice g pid r1 r2).1
  | discardCards {g : Game} (pid : String) (resources : List (Res × Int)) :
      Reachable g → Reachable (discardCards g pid resources).1
  | moveRobber {g : Game} (pid : String) (hk : HexCoord) (steal : Option String) (k : Nat) :
      Reachable g → Reachable (moveRobber g pid hk steal k).1
  | placeSettlement {g : Game} (pid : String) (vk : VKey) :
      Reachable g → Reachable (placeSettlement g pid vk).1
  | placeRoad {g : Game} (pid : String) (ek : EKey) (isSetup : Bool) (ls : Option VKey) :
      Reachable g → Reachable (placeRoad g pid ek isSetup ls).1
  | upgradeToCity {g : Game} (pid : String) (vk : VKey) :
      Reachable g → Reachable (upgradeToCity g pid vk).1
  | buyDevCard {g : Game} (pid : String) :
      Reachable g → Reachable (buyDevCard g pid).1
  | playDevCard {g : Game} (pid : String) (card : DevCard) (resourceParam : Option Res) :
      Reachable g → Reachable (playDevCard g pid card resourceParam).1
  | yearOfPlentyPick {g : Game} (pid : String) (res : Res) :
      Reachable g → Reachable (yearOfPlentyPick g pid res).1
  | bankTrade {g : Game} (pid : String) (giveRes : Res) (giveAmount : Int) (getRes : Res) :
      Reachable g → Reachable (bankTrade g pid giveRes giveAmount getRes).1
  | proposeTrade {g : Game} (pid : String) (offer request : List (Res × Int)) :
      Reachable g → Reachable (proposeTrade g pid offer request).1
  | respondToTrade {g : Game} (pid : String) (accept : Bool) :
      Reachable g → Reachable (respondToTrade g pid accept).1
  | cancelTrade {g : Game} (pid : String) :
      Reachable g → Reachable (cancelTrade g pid).1
  | endTurn {g : Game} (pid : String) :
      Reachable g → Reachable (endTurn g pid).1
  | endSpecialBuild {g : Game} (pid : String) :
      Reachable g → Reachable (endSpecialBuild g pid).1
  | advanceSetup {g : Game} (pid : String) :
      Reachable g → Reachable (advanceSetup g pid).1

/-! ### A concrete game (trace T1) exercising a stale trade offer

Board: standard layout where position 16 `(-2, 2)` is a hills hex with token
5 sitting on the 2:1 brick port, and the desert is position 18 `(0, 2)`.
Player A settles the brick-port vertex as the second setup settlement
(+1 brick), rolls a 5 (+1 brick), offers 2 brick for nothing, bank-trades
its 2 brick away through the port, and B then accepts the stale offer. -/

def t1JsTerrain : List Nat := [18, 0, 1, 2, 0, 1, 2, 0, 0, 1, 2, 0, 0, 1, 2, 0, 0, 0]

def t1JsNumbers : List Nat := [17, 5, 5, 13, 13, 11, 11, 9, 9, 7, 7, 6, 5, 3, 3, 1, 1]

def t1G0 : Game :=
  createGame ("g1") ("A") ("Alice") false true t1JsTerrain t1JsNumbers (List.replicate 24 0)

def t1G2 : Game := (startGame (addPlayer t1G0 ("B") ("Bob")).1 [1]).1

def t1Setup : Game :=
  let g3 := (placeSettlement t1G2 ("A") ⟨0, -1, 0⟩).1
  let g4 := (placeRoad g3 ("A") ⟨0, -1, 5⟩ true (some ⟨0, -1, 0⟩)).1
  let g5 := (advanceSetup g4 ("A")).1
  let g6 := (placeSettlement g5 ("B") ⟨0, 1, 0⟩).1
  let g7 := (placeRoad g6 ("B") ⟨0, 1, 5⟩ true (some ⟨0, 1, 0⟩)).1
  let g8 := (advanceSetup g7 ("B")).1
  let g9 := (placeSettlement g8 ("B") ⟨-1, 0, 0⟩).1
  let g10 := (placeRoad g9 ("B") ⟨-1, 0, 5⟩ true (some ⟨-1, 0, 0⟩)).1
  let g11 := (advanceSetup g10 ("B")).1
  let g12 := (placeSettlement g11 ("A") ⟨-2, 2, 3⟩).1
  let g13 := (placeRoad g12 ("A") ⟨-2, 2, 3⟩ true (some ⟨-2, 2, 3⟩)).1
  (advanceSetup g13 ("A")).1

def t1Final : Game :=
  let g15 := (rollDice t1Setup ("A") 1 2).1
  let g16 := (proposeTrade g15 ("A") [(Res.brick, 2)] []).1
  let g17 := (bankTrade g16 ("A") Res.brick 2 Res.ore).1
  (respondToTrade g17 ("B") true).1

/-! ### A concrete game (trace T2) splitting the longest road by a settlement

Board: standard layout where hex `(0, 0)` is hills with token 6, `(0, -1)`
forest token 6, `(-1, 1)` hills token 9, `(-2, 2)` forest token 9, `(0, 1)`
fields token 4, desert at `(2, 0)`.  Player A builds the 5-edge path around
hex `(0, 0)` and takes the longest-road title; player B then settles the
interior vertex `v(0,0,4)` of that path, which splits it, without the title
being re-examined. -/

def t2JsTerrain : List Nat := [3, 0, 4, 0, 11, 1, 7, 3, 5, 2, 0, 0, 2, 4, 2, 0, 0, 1]

def t2JsNumbers : List Nat := [17, 15, 11, 11, 3, 12, 3, 3, 7, 3, 7, 5, 5, 3, 1, 2, 0]

def t2G0 : Game :=
  createGame ("g2") ("A") ("Alice") false true t2JsTerrain t2JsNumbers (List.replicate 24 0)

def t2Setup : Game :=
  let g2 := (startGame (addPlayer t2G0 ("B") ("Bob")).1 [1]).1
  let g3 := (placeSettlement g2 ("A") ⟨0, 0, 0⟩).1
  let g4 := (placeRoad g3 ("A") ⟨0, 0, 0⟩ true (some ⟨0, 0, 0⟩)).1
  let g5 := (advanceSetup g4 ("A")).1
  let g6 := (placeSettlement g5 ("B") ⟨0, 1, 3⟩).1
  let g7 := (placeRoad g6 ("B") ⟨0, 1, 3⟩ true (some ⟨0, 1, 3⟩)).1
  let g8 := (advanceSetup g7 ("B")).1
  let g9 := (placeSettlement g8 ("B") ⟨-1, 1, 4⟩).1
  let g10 := (placeRoad g9 ("B") ⟨-1, 1, 4⟩ true (some ⟨-1, 1, 4⟩)).1
  let g11 := (advanceSetup g10 ("B")).1
  let g12 := (placeSettlement g11 ("A") ⟨0, 0, 2⟩).1
  let g13 := (placeRoad g12 ("A") ⟨0, 0, 2⟩ true (some ⟨0, 0, 2⟩)).1
  (advanceSetup g13 ("A")).1

def t2Final : Game :=
  let g15 := (rollDice t2Setup ("A") 2 2).1
  let g16 := (placeRoad g15 ("A") ⟨0, 0, 1⟩ false none).1
  let g17 := (placeRoad g16 ("A") ⟨0, 0, 3⟩ false none).1
  let g18 := (endTurn g17 ("A")).1
  let g19 := (rollDice g18 ("B") 3 4).1
  let g20 := (placeRoad g19 ("B") ⟨-1, 1, 5⟩ false none).1
  let g21 := (endTurn g20 ("B")).1
  let g22 := (rollDice g21 ("A") 2 2).1
  let g23 := (placeRoad g22 ("A") ⟨0, 0, 4⟩ false none).1
  let g24 := (endTurn g23 ("A")).1
  let g25 := (rollDice g24 ("B") 1 1).1
  (placeSettlement g25 ("B") ⟨0, 0, 4⟩).1

/-- Claim C1: the specification asserts that every player resource counter is
non-negative in every state reachable from a fresh game through engine
operations.  The code violates this: `respondToTrade` with accept validates
only the responder, so after the offerer proposes a trade and then spends the
offered resources (here through a 2:1 port bank trade), acceptance drives the
offerer brick counter to -2 in the reachable state `t1Final`. -/
theorem c1_negative_resource_reachable :
    Reachable t1Final ∧ (t1Final.players.getD 0 dummyPlayer).resources.brick < 0 := by
  constructor
  · have h0 : Reachable t1G0 := Reachable.init _ _ _ _ _ _ _ _
    have h2 : Reachable t1G2 := Reachable.startGame _ (Reachable.addPlayer _ _ h0)
    have hs : Reachable t1Setup :=
      Reachable.advanceSetup _ (Reachable.placeRoad _ _ _ _ (Reachable.placeSettlement _ _
        (Reachable.advanceSetup _ (Reachable.placeRoad _ _ _ _ (Reachable.placeSettlement _ _
          (Reachable.advanceSetup _ (Reachable.placeRoad _ _ _ _ (Reachable.placeSettlement _ _
            (Reachable.advanceSetup _ (Reachable.placeRoad _ _ _ _ (Reachable.placeSettlement _ _
              h2)))))))))))
    exact Reachable.respondToTrade _ _ (Reachable.bankTrade _ _ _ _
      (Reachable.proposeTrade _ _ _ (Reachable.rollDice _ _ _ hs)))
  · decide

/-- Claim C6 counterexample: `t2Final` is reachable, records player 0 as the
longest-road holder, yet the longest continuous road of player 0 as computed
by the engine itself (`calculateRoadLength`) is 4 after player 1 placed a
settlement in the middle of the titled road; `placeSettlement` never
re-examines the title. -/
theorem c6_stale_longest_road_counterexample :
    Reachable t2Final ∧ t2Final.longestRoadPlayer = some 0 ∧
      calculateRoadLength t2Final 0 < 5 := by
  refine ⟨?_, by decide⟩
  have h0 : Reachable t2G0 := Reachable.init _ _ _ _ _ _ _ _
  have hs : Reachable t2Setup :=
    Reachable.advanceSetup _ (Reachable.placeRoad _ _ _ _ (Reachable.placeSettlement _ _
      (Reachable.advanceSetup _ (Reachable.placeRoad _ _ _ _ (Reachable.placeSettlement _ _
        (Reachable.advanceSetup _ (Reachable.placeRoad _ _ _ _ (Reachable.placeSettlement _ _
          (Reachable.advanceSetup _ (Reachable.placeRoad _ _ _ _ (Reachable.placeSettlement _ _
            (Reachable.startGame _ (Reachable.addPlayer _ _ h0)))))))))))))
  exact Reachable.placeSettlement _ _ (Reachable.rollDice _ _ _ (Reachable.endTurn _
    (Reachable.placeRoad _ _ _ _ (Reachable.rollDice _ _ _ (Reachable.endTurn _
      (Reachable.placeRoad _ _ _ _ (Reachable.rollDice _ _ _ (Reachable.endTurn _
        (Reachable.placeRoad _ _ _ _ (Reachable.placeRoad _ _ _ _
          (Reachable.rollDice _ _ _ hs)))))))))))

/-! ### Helper lemmas about the achievement trackers -/

theorem foldl_max_eq_or_mem (l : List Nat) (a : Nat) : l.foldl max a = a ∨ l.foldl max a ∈ l := by
  induction l generalizing a with
  | nil => exact Or.inl rfl
  | cons x t ih =>
    rcases ih (max a x) with h | h
    · rcases le_total a x with hax | hax
      · right
        rw [List.foldl_cons, h, max_eq_right hax]
        exact List.mem_cons_self _ _
      · left
        rw [List.foldl_cons, h, max_eq_left hax]
    · right
      exact List.mem_cons_of_mem _ h

theorem checkWinner_longestRoadPlayer (g : Game) :
    (checkWinner g).longestRoadPlayer = g.longestRoadPlayer := by
  unfold checkWinner
  split <;> rfl

theorem checkWinner_largestArmyPlayer (g : Game) :
    (checkWinner g).largestArmyPlayer = g.largestArmyPlayer := by
  unfold checkWinner
  split <;> rfl

/-- Every element of the per-player length table is the recomputed length of
the player it is indexed by. -/
theorem roadLengths_snd (g : Game) {x : Nat × Nat}
    (hx : x ∈ (enumFrom 0 g.players).map (fun y => (y.1, calculateRoadLength g y.1))) :
    x.2 = calculateRoadLength g x.1 := by
  rcases List.mem_map.mp hx with ⟨y, _, rfl⟩
  rfl

/-- Every element of the per-player knight table is the knight count of the
player it is indexed by. -/
theorem knights_snd (g : Game) {x : Nat × Nat}
    (hx : x ∈ (enumFrom 0 g.players).map (fun y => (y.1, y.2.knightsPlayed))) :
    (g.players.getD x.1 dummyPlayer).knightsPlayed = x.2 := by
  rcases List.mem_map.mp hx with ⟨y, hy, rfl⟩
  rcases mem_enumFrom.mp hy with ⟨j, hget, hj⟩
  simp only [Nat.zero_add] at hj
  subst hj
  rw [List.getD_eq_get?, hget]
  rfl

/-- Claim C6 (amended): the threshold invariants hold at every point where a
tracker runs.  After `updateLongestRoad`, any recorded longest-road holder
has a recomputed longest continuous road of length at least 5
(unconditionally).  `updateLargestArmy` preserves the army threshold: when
every previously recorded holder satisfied it, any holder it leaves recorded
has played at least 3 knights.  The claimed invariant over all reachable
states fails as stated, because `placeSettlement` never re-runs the road
tracker: see `c6_stale_longest_road_counterexample`. -/
theorem c6_title_thresholds_after_tracker_update (g : Game)
    (hpre : ∀ j, g.largestArmyPlayer = some j →
      3 ≤ (g.players.getD j dummyPlayer).knightsPlayed) :
    (∀ i, (updateLongestRoad g).longestRoadPlayer = some i →
      5 ≤ calculateRoadLength g i) ∧
    (∀ i, (updateLargestArmy g).largestArmyPlayer = some i →
      3 ≤ (g.players.getD i dummyPlayer).knightsPlayed) := by
  constructor
  · intro i h
    unfold updateLongestRoad at h
    simp only at h
    split at h
    · split at h
      · simp at h
        simp_all
      · rw [checkWinner_longestRoadPlayer] at h
        simp at h
    · rename_i hmax5
      push_neg at hmax5
      split at h
      · -- the current holder keeps the title
        rename_i hc
        simp at h
        rw [h] at hc
        simp only [decide_eq_true_eq] at hc
        simp only [List.map_map] at hmax5
        cases hp : g.players.get? i with
        | some p =>
          rw [List.getD_eq_get?, get?_mapIdxFrom, hp] at hc
          simp at hc
          omega
        | none =>
          rw [List.getD_eq_get?, get?_mapIdxFrom, hp] at hc
          simp [dummyPlayer, freshPlayer] at hc
          omega
      · rename_i hnc
        split at h
        · -- a unique maximum: the title moves to that player
          rename_i hlen1
          rw [checkWinner_longestRoadPlayer] at h
          rcases List.length_eq_one.mp hlen1 with ⟨x, hx⟩
          have hmem := hx ▸ List.mem_singleton_self x
          obtain ⟨hmemRL, heq⟩ := List.mem_filter.mp hmem
          have hsnd := roadLengths_snd g hmemRL
          have heq' := of_decide_eq_true heq
          rw [hsnd] at heq'
          split at h <;>
          · rw [hx] at h
            simp at h
            rw [h] at heq'
            omega
        · rename_i hne1
          split at h
          · rename_i holder hheq
            split at h
            · rw [checkWinner_longestRoadPlayer] at h
              simp at h
            · rename_i hngt
              exfalso
              rcases foldl_max_eq_or_mem ((((enumFrom 0 g.players).map
                  (fun x => (x.1, calculateRoadLength g x.1))).map Prod.snd)) 0 with hz | hmem
              · omega
              · rcases List.mem_map.mp hmem with ⟨x, hxRL, hxeq⟩
                have hxf : x ∈ (((enumFrom 0 g.players).map
                    (fun x => (x.1, calculateRoadLength g x.1))).filter
                    (fun x => decide (x.2 = (((enumFrom 0 g.players).map
                      (fun x => (x.1, calculateRoadLength g x.1))).map Prod.snd).foldl max 0))) := by
                  rw [List.mem_filter]
                  exact ⟨hxRL, by simp [hxeq]⟩
                have := List.length_pos_of_mem hxf
                omega
          · simp at h
            simp_all
  · intro i h
    unfold updateLargestArmy at h
    simp only at h
    split at h
    · exact hpre i h
    · rename_i hmax3
      push_neg at hmax3
      split at h
      · simp at h
        exact hpre i h
      · rename_i hnc
        split at h
        · -- a unique maximum: the title moves to that player
          rename_i hlen1
          rw [checkWinner_largestArmyPlayer] at h
          rcases List.length_eq_one.mp hlen1 with ⟨x, hx⟩
          have hmem := hx ▸ List.mem_singleton_self x
          obtain ⟨hmemK, heq⟩ := List.mem_filter.mp hmem
          have hsnd := knights_snd g hmemK
          have heq' := of_decide_eq_true heq
          split at h <;>
          · rw [hx] at h
            simp at h
            rw [h] at hsnd
            rw [hsnd, heq']
            exact hmax3
        · rename_i hne1
          split at h
          · rename_i holder hheq
            split at h
            · rw [checkWinner_largestArmyPlayer] at h
              simp at h
            · exact hpre i h
          · exact hpre i h

/-- A bare game record used to assemble small concrete states. -/
def baseGame : Game :=
  { id := "t", phase := Phase.playing, setupPhase := 0, currentPlayerIndex := 0,
    turnPhase := TurnPhase.main, isExtended := false, maxPlayers := 4,
    enableSpecialBuild := true, specialBuildingPhase := false, specialBuildIndex := 0,
    ports := [], players := [], hexes := [], vertices := [], edges := [],
    robber := none, devCardDeck := [], longestRoadPlayer := none,
    longestRoadLength := 4, largestArmyPlayer := none, largestArmySize := 2,
    diceRoll := none, winner := none, tradeOffer := none, discardingPlayers := [],
    freeRoads := 0, yearOfPlentyPicks := 0, devCardPlayedThisTurn := false,
    hasRolledThisTurn := false }

/-- A state on which both trackers assign titles: player 0 owns a 5-edge road
path and has played 3 knights. -/
def c6WitnessGame : Game :=
  { baseGame with
      players := [{ freshPlayer ("A") ("Alice") with knightsPlayed := 3 },
                  freshPlayer ("B") ("Bob")],
      edges := [(⟨0, 0, 0⟩, ⟨true, some 0⟩), (⟨0, 0, 1⟩, ⟨true, some 0⟩),
                (⟨0, 0, 2⟩, ⟨true, some 0⟩), (⟨0, 0, 3⟩, ⟨true, some 0⟩),
                (⟨0, 0, 4⟩, ⟨true, some 0⟩)] }

/-- Witness for `c6_title_thresholds_after_tracker_update` at a concrete
state on which both trackers assign their titles to player 0. -/
theorem c6_title_thresholds_witness :
    (updateLongestRoad c6WitnessGame).longestRoadPlayer = some 0 ∧
    5 ≤ calculateRoadLength c6WitnessGame 0 ∧
    (updateLargestArmy c6WitnessGame).largestArmyPlayer = some 0 ∧
    3 ≤ (c6WitnessGame.players.getD 0 dummyPlayer).knightsPlayed := by
  refine ⟨by decide, ?_, by decide, ?_⟩
  · exact (c6_title_thresholds_after_tracker_update c6WitnessGame
      (fun j hj => nomatch hj)).1 0 (by decide)
  · exact (c6_title_thresholds_after_tracker_update c6WitnessGame
      (fun j hj => nomatch hj)).2 0 (by decide)

/-! ### Claim C2: mutation on a failing path of playDevCard -/

/-- A state in which the current player holds a monopoly and a
victory-point development card. -/
def c2Game : Game :=
  { baseGame with
      players := [{ freshPlayer ("A") ("Alice") with
                      developmentCards := [DevCard.monopoly, DevCard.victoryPoint] },
                  freshPlayer ("B") ("Bob")] }

/-- Claim C2: the specification says failing operations leave the aggregate
untouched.  `playDevCard` removes the card from the hand before dispatching
on the card type, so the failing monopoly-without-resource path and the
failing victory-point path both return failure with the hand already
mutated. -/
theorem c2_playDevCard_mutates_on_failure :
    (playDevCard c2Game ("A") DevCard.monopoly none).2.success = false ∧
    (playDevCard c2Game ("A") DevCard.monopoly none).1 ≠ c2Game ∧
    ((playDevCard c2Game ("A") DevCard.monopoly none).1.players.getD 0
      dummyPlayer).developmentCards = [DevCard.victoryPoint] ∧
    (playDevCard c2Game ("A") DevCard.victoryPoint none).2.success = false ∧
    ((playDevCard c2Game ("A") DevCard.victoryPoint none).1.players.getD 0
      dummyPlayer).developmentCards = [DevCard.monopoly] ∧
    (c2Game.players.getD 0 dummyPlayer).developmentCards =
      [DevCard.monopoly, DevCard.victoryPoint] := by
  decide

/-! ### Claim C4: the robber steals without a building on the target hex -/

/-- A state in robber phase where player B holds one wool but has no building
anywhere, in particular none on the target hex `(0, 0)`. -/
def c4Game : Game :=
  { baseGame with
      turnPhase := TurnPhase.robber,
      hasRolledThisTurn := true,
      players := [freshPlayer ("A") ("Alice"),
                  { freshPlayer ("B") ("Bob") with resources := { zeroRes with wool := 1 } }],
      hexes := [(⟨0, 0⟩, { q := 0, r := 0, terrain := Terrain.pasture,
                           resource := some Res.wool, number := some 5 }),
                (⟨1, 0⟩, { q := 1, r := 0, terrain := Terrain.desert,
                           resource := none, number := none })],
      robber := some ⟨1, 0⟩ }

/-- Claim C4: the specification requires the named victim to have a building
on the target hex.  `moveRobber` never checks this: on `c4Game` the engine
itself reports nobody on hex `(0, 0)` (`getPlayersOnHex`), yet naming B as
the victim succeeds and transfers one wool from B to A. -/
theorem c4_robber_steals_without_building :
    getPlayersOnHex c4Game ⟨0, 0⟩ none = [] ∧
    (moveRobber c4Game ("A") ⟨0, 0⟩ (some ("B")) 0).2.success = true ∧
    (moveRobber c4Game ("A") ⟨0, 0⟩ (some ("B")) 0).2.stolenInfo =
      some ⟨Res.wool, "A", "B"⟩ ∧
    ((moveRobber c4Game ("A") ⟨0, 0⟩ (some ("B")) 0).1.players.getD 1
      dummyPlayer).resources.wool = 0 ∧
    ((moveRobber c4Game ("A") ⟨0, 0⟩ (some ("B")) 0).1.players.getD 0
      dummyPlayer).resources.wool = 1 := by
  decide

/-! ### Claim C7: upgrading a settlement through an equivalent vertex key -/

/-- A state where player A owns a settlement stored under key `v_0_0_0`, can
build now, has city inventory and can afford a city.  The board also holds
the empty slot `v_0_-1_2`, an equivalent representation of the same physical
vertex (as `createGame` pre-allocates every per-hex key). -/
def c7Game : Game :=
  { baseGame with
      players := [{ freshPlayer ("A") ("Alice") with
                      resources := { zeroRes with ore := 3, grain := 2 },
                      victoryPoints := 1, settlements := 4 },
                  freshPlayer ("B") ("Bob")],
      vertices := [(⟨0, 0, 0⟩, ⟨some Building.settlement, some 0⟩),
                   (⟨0, -1, 2⟩, ⟨none, none⟩),
                   (⟨1, -1, 4⟩, ⟨none, none⟩)] }

/-- Claim C7 counterexample: `v_0_-1_2` denotes the same physical vertex as
`v_0_0_0` (where the settlement of player A is stored), the player can build,
has city inventory and affordability — yet `upgradeToCity` called with the
equivalent key fails and changes nothing, because it looks up only the exact
key. -/
theorem c7_equivalent_key_upgrade_fails :
    areVerticesEqual ⟨0, -1, 2⟩ ⟨0, 0, 0⟩ = true ∧
    alookup c7Game.vertices ⟨0, 0, 0⟩ =
      some ⟨some Building.settlement, some 0⟩ ∧
    canPlayerBuildNow c7Game ("A") = true ∧
    0 < (c7Game.players.getD 0 dummyPlayer).cities ∧
    hasResources (c7Game.players.getD 0 dummyPlayer) cityCost = true ∧
    (upgradeToCity c7Game ("A") ⟨0, -1, 2⟩).2.success = false ∧
    (upgradeToCity c7Game ("A") ⟨0, -1, 2⟩).2.error =
      some GameError.noSettlementToUpgrade ∧
    (upgradeToCity c7Game ("A") ⟨0, -1, 2⟩).1 = c7Game := by
  decide

/-- Claim C7 (amended): `upgradeToCity` succeeds only through the exact key
under which the settlement record is stored (it checks no equivalent
representations; see `c7_equivalent_key_upgrade_fails`).  Under that key,
given city inventory and affordability, and provided the upgrade does not
push any player to 10 points (which would end the game and fold hidden
points into the visible count), it marks the vertex as a city, returns the
settlement token to inventory, consumes 3 ore and 2 grain, and adds exactly
one visible victory point. -/
theorem c7_upgrade_with_stored_key (g : Game) (pid : String) (vk : VKey) (i : Nat) (p : Player)
    (hidx : g.players.findIdx? (fun q => q.id = pid) = some i)
    (hbuild : canPlayerBuildNow g pid = true)
    (hvert : alookup g.vertices vk = some ⟨some Building.settlement, some i⟩)
    (hp : g.players.get? i = some p)
    (hcity : 0 < p.cities)
    (hres : hasResources p cityCost = true)
    (hnowin : ∀ j q, g.players.get? j = some q →
      q.victoryPoints + q.hiddenVictoryPoints + (if j = i then 1 else 0) < 10) :
    (upgradeToCity g pid vk).2.success = true ∧
    (upgradeToCity g pid vk).1.vertices =
      aset g.vertices vk ⟨some Building.city, some i⟩ ∧
    (∃ q, (upgradeToCity g pid vk).1.players.get? i = some q ∧
      q.settlements = p.settlements + 1 ∧
      q.cities = p.cities - 1 ∧
      q.victoryPoints = p.victoryPoints + 1 ∧
      q.hiddenVictoryPoints = p.hiddenVictoryPoints ∧
      q.resources.ore = p.resources.ore - 3 ∧
      q.resources.grain = p.resources.grain - 2 ∧
      q.resources.brick = p.resources.brick ∧
      q.resources.lumber = p.resources.lumber ∧
      q.resources.wool = p.resources.wool) := by
  have hgd : g.players.getD i dummyPlayer = p := by
    rw [List.getD_eq_get?, hp]
    rfl
  have hlt : i < g.players.length := by
    rcases List.get?_eq_some.mp hp with ⟨h, _⟩
    exact h
  have hunf : upgradeToCity g pid vk =
      (checkWinner { g with
        players := (setPlayer g.players i (fun p =>
          let p := deductResources p cityCost
          { p with settlements := p.settlements + 1, cities := p.cities - 1,
                   victoryPoints := p.victoryPoints + 1 }))
        vertices := (aset g.vertices vk
          { building := some Building.city, owner := some i }) }, okResult) := by
    unfold upgradeToCity
    rw [hidx]
    simp only [hbuild, hvert, hgd]
    simp [hres, show ¬ p.cities ≤ 0 from by omega, errResult]
  have hset : setPlayer g.players i (fun p =>
      let p := deductResources p cityCost
      { p with settlements := p.settlements + 1, cities := p.cities - 1,
               victoryPoints := p.victoryPoints + 1 }) =
      g.players.set i { deductResources p cityCost with
        settlements := (deductResources p cityCost).settlements + 1,
        cities := (deductResources p cityCost).cities - 1,
        victoryPoints := (deductResources p cityCost).victoryPoints + 1 } := by
    unfold setPlayer
    rw [hgd]
  have hck : ∀ gx : Game, (∀ x ∈ gx.players, ¬ (10 ≤ x.victoryPoints + x.hiddenVictoryPoints)) →
      checkWinner gx = gx := by
    intro gx hx
    unfold checkWinner
    have : gx.players.find? (fun p => decide (10 ≤ p.victoryPoints + p.hiddenVictoryPoints))
        = none := by
      rw [List.find?_eq_none]
      intro x hxm
      simp only [decide_eq_true_eq]
      exact hx x hxm
    rw [this]
  rw [hunf, hset]
  have hnw : ∀ x ∈ (g.players.set i { deductResources p cityCost with
        settlements := (deductResources p cityCost).settlements + 1,
        cities := (deductResources p cityCost).cities - 1,
        victoryPoints := (deductResources p cityCost).victoryPoints + 1 }),
      ¬ (10 ≤ x.victoryPoints + x.hiddenVictoryPoints) := by
    intro x hx
    rcases List.mem_or_eq_of_mem_set hx with hmem | rfl
    · rcases List.get?_of_mem hmem with ⟨j, hj⟩
      have := hnowin j x hj
      split at this <;> omega
    · have := hnowin i p hp
      simp at this
      simp only [deductResources, cityCost, Resources.add, Resources.get, Resources.set,
        List.foldl_cons, List.foldl_nil]
      omega
  rw [hck _ hnw]
  refine ⟨rfl, rfl, ?_⟩
  refine ⟨_, List.get?_set_eq_of_lt _ (by simpa using hlt), ?_, ?_, ?_, ?_, ?_, ?_, ?_, ?_, ?_⟩ <;>
    simp [deductResources, cityCost, Resources.add, Resources.get, Resources.set] <;> omega

/-- Witness for `c7_upgrade_with_stored_key`: the upgrade succeeds on
`c7Game` when called with the stored key `v_0_0_0`. -/
theorem c7_upgrade_with_stored_key_witness :
    (upgradeToCity c7Game ("A") ⟨0, 0, 0⟩).2.success = true :=
  (c7_upgrade_with_stored_key c7Game ("A") ⟨0, 0, 0⟩ 0
    ({ freshPlayer ("A") ("Alice") with
        resources := { zeroRes with ore := 3, grain := 2 },
        victoryPoints := 1, settlements := 4 })
    (by decide) (by decide) (by decide) (by decide) (by decide) (by decide)
    (by
      intro j q hj
      rcases j with _ | _ | j
      · simp [c7Game, baseGame, freshPlayer] at hj
        simp [← hj]
      · simp [c7Game, baseGame, freshPlayer] at hj
        simp [← hj]
      · simp [c7Game, baseGame, List.get?] at hj)).1

theorem getD_set_self {l : List Player} {i : Nat} {x : Player}
    (hlt : i < l.length) : (l.set i x).getD i dummyPlayer = x := by
  rw [List.getD_eq_get?, List.get?_set_eq_of_lt _ hlt]
  rfl

/-- Claim C9: a successfully played road-building card sets the outstanding
free-road credit to exactly `min 2 roads-in-inventory` of the acting player,
which never exceeds the roads the player can still place. -/
theorem c9_road_building_grants_min_free_roads (g : Game) (pid : String) (rp : Option Res) (i : Nat) (p : Player)
    (hidx : g.players.findIdx? (fun q => q.id = pid) = some i)
    (hp : g.players.get? i = some p)
    (hsucc : (playDevCard g pid DevCard.roadBuilding rp).2.success = true) :
    (playDevCard g pid DevCard.roadBuilding rp).1.freeRoads = min 2 p.roads ∧
    (playDevCard g pid DevCard.roadBuilding rp).1.freeRoads ≤ p.roads := by
  have hlt : i < g.players.length := by
    rcases List.get?_eq_some.mp hp with ⟨h, _⟩
    exact h
  have hgd : g.players.getD i dummyPlayer = p := by
    rw [List.getD_eq_get?, hp]
    rfl
  unfold playDevCard at hsucc ⊢
  rw [hidx] at hsucc ⊢
  simp only at hsucc ⊢
  split at hsucc
  · simp [errResult] at hsucc
  · split at hsucc
    · simp [errResult] at hsucc
    · split at hsucc
      · simp [errResult] at hsucc
      · rename_i h1 h2 h3
        rw [if_neg h1, if_neg h2, if_neg h3]
        simp only [setPlayer, hgd]
        rw [getD_set_self hlt]
        constructor
        · rfl
        · exact min_le_right _ _

/-- A state in which the current player holds a road-building card but only
one road token. -/
def c9Game : Game :=
  { baseGame with
      players := [{ freshPlayer ("A") ("Alice") with
                      developmentCards := [DevCard.roadBuilding], roads := 1 }] }

/-- Witness for `c9_road_building_grants_min_free_roads` on `c9Game`:
one road in inventory caps the grant at one free road. -/
theorem c9_road_building_witness :
    (playDevCard c9Game ("A") DevCard.roadBuilding none).1.freeRoads = 1 ∧
    (playDevCard c9Game ("A") DevCard.roadBuilding none).1.freeRoads ≤ 1 := by
  have h := c9_road_building_grants_min_free_roads c9Game ("A") none 0
    ({ freshPlayer ("A") ("Alice") with
        developmentCards := [DevCard.roadBuilding], roads := 1 })
    (by decide) (by decide) (by decide)
  exact ⟨by rw [h.1]; decide, h.2⟩

/-- Claim C5: a successful roll in fine phase `roll` totalling 7 creates a
discard obligation of exactly `floor(total held / 2)` for exactly the players
holding strictly more than 7 resource cards (assuming no obligations were
pending), sets the fine phase to `discard` when at least one obligation
exists and to `robber` otherwise, and distributes no resources. -/
theorem c5_roll_seven_discard_obligations (g : Game) (pid : String) (r1 r2 : Nat)
    (h7 : r1 % 6 + 1 + (r2 % 6 + 1) = 7)
    (hdp : g.discardingPlayers = [])
    (hsucc : (rollDice g pid r1 r2).2.success = true) :
    (∀ d, d ∈ (rollDice g pid r1 r2).1.discardingPlayers ↔
      ∃ p, g.players.get? d.playerIndex = some p ∧ 7 < p.resources.total ∧
        d.cardsToDiscard = p.resources.total / 2) ∧
    ((rollDice g pid r1 r2).1.turnPhase =
      if g.players.any (fun p => decide (7 < p.resources.total)) then TurnPhase.discard
      else TurnPhase.robber) ∧
    (∀ i, ((rollDice g pid r1 r2).1.players.get? i).map Player.resources =
      (g.players.get? i).map Player.resources) := by
  have hmem : ∀ d : DiscardInfo, d ∈ (enumFrom 0 g.players).filterMap (fun x =>
      if 7 < x.2.resources.total then
        some (DiscardInfo.mk x.1 (x.2.resources.total / 2))
      else none) ↔
      ∃ p, g.players.get? d.playerIndex = some p ∧ 7 < p.resources.total ∧
        d.cardsToDiscard = p.resources.total / 2 := by
    intro d
    rw [List.mem_filterMap]
    constructor
    · rintro ⟨x, hx, hfx⟩
      split at hfx
      · rename_i hgt
        rcases mem_enumFrom.mp hx with ⟨j, hget, hj⟩
        simp only [Nat.zero_add] at hj
        cases hfx
        exact ⟨x.2, by rw [← hj] at hget; exact hget, hgt, rfl⟩
      · cases hfx
    · rintro ⟨p, hget, hgt, hcards⟩
      refine ⟨(d.playerIndex, p), mem_enumFrom.mpr ⟨d.playerIndex, hget, by omega⟩, ?_⟩
      rw [if_pos hgt]
      cases d
      simp at hcards
      rw [hcards]
  have hany : (0 < ((enumFrom 0 g.players).filterMap (fun x =>
      if 7 < x.2.resources.total then
        some (DiscardInfo.mk x.1 (x.2.resources.total / 2))
      else none)).length) ↔
      (g.players.any (fun p => decide (7 < p.resources.total)) = true) := by
    rw [List.length_pos_iff_exists_mem, List.any_eq_true]
    constructor
    · rintro ⟨d, hd⟩
      rcases (hmem d).mp hd with ⟨p, hget, hgt, _⟩
      exact ⟨p, List.get?_mem hget, by simpa using hgt⟩
    · rintro ⟨p, hpm, hgt⟩
      rcases List.get?_of_mem hpm with ⟨j, hj⟩
      exact ⟨⟨j, p.resources.total / 2⟩,
        (hmem _).mpr ⟨p, hj, by simpa using hgt, rfl⟩⟩
  simp only [rollDice] at hsucc ⊢
  by_cases hg1 : (g.players.getD g.currentPlayerIndex dummyPlayer).id = pid
  case neg =>
    rw [if_pos hg1] at hsucc
    simp at hsucc
  case pos =>
    rw [if_neg (not_not_intro hg1)] at hsucc ⊢
    by_cases hg2 : g.turnPhase = TurnPhase.roll
    case neg =>
      rw [if_pos hg2] at hsucc
      simp at hsucc
    case pos =>
      rw [if_neg (not_not_intro hg2), if_pos h7]
      by_cases hpos : (0 < ((enumFrom 0 g.players).filterMap (fun x =>
          if 7 < x.2.resources.total then
            some (DiscardInfo.mk x.1 (x.2.resources.total / 2))
          else none)).length)
      · rw [if_pos hpos]
        refine ⟨fun d => hmem d, ?_, fun i => rfl⟩
        rw [if_pos (hany.mp hpos)]
      · rw [if_neg hpos]
        have hnoone : ¬ (g.players.any (fun p => decide (7 < p.resources.total)) = true) := by
          intro hc
          exact hpos (hany.mpr hc)
        refine ⟨fun d => ?_, ?_, fun i => rfl⟩
        · change d ∈ g.discardingPlayers ↔ _
          rw [hdp]
          constructor
          · intro hd
            exact absurd hd (List.not_mem_nil d)
          · rintro ⟨p, hget, hgt, hcards⟩
            exact absurd (hany.mpr (List.any_eq_true.mpr
              ⟨p, List.get?_mem hget, by simpa using hgt⟩)) hpos
        · rw [if_neg hnoone]

/-- A state in roll phase in which the current player holds 9 cards. -/
def c5Game : Game :=
  { baseGame with
      turnPhase := TurnPhase.roll,
      players := [{ freshPlayer ("A") ("Alice") with
                      resources := { zeroRes with brick := 9 } },
                  freshPlayer ("B") ("Bob")] }

/-- Witness for `c5_roll_seven_discard_obligations` on `c5Game`: rolling
1 and 6, the 9-card player owes exactly 4 discards and the phase moves to
`discard`. -/
theorem c5_roll_seven_witness :
    (⟨0, 4⟩ : DiscardInfo) ∈ (rollDice c5Game ("A") 0 5).1.discardingPlayers ∧
    (rollDice c5Game ("A") 0 5).1.turnPhase = TurnPhase.discard := by
  have h := c5_roll_seven_discard_obligations c5Game ("A") 0 5 (by decide) (by decide) (by decide)
  refine ⟨(h.1 ⟨0, 4⟩).mpr ⟨c5Game.players.getD 0 dummyPlayer, by decide, by decide, by decide⟩, ?_⟩
  rw [h.2.1]
  decide

theorem get?_enumFrom {α : Type} (k : Nat) (l : List α) (j : Nat) :
    (enumFrom k l).get? j = (l.get? j).map (fun a => (k + j, a)) := by
  induction l generalizing k j with
  | nil => simp [enumFrom]
  | cons a t ih =>
    cases j with
    | zero => simp [enumFrom]
    | succ j =>
      simp only [enumFrom, List.get?_cons_succ, ih]
      have : k + 1 + j = k + (j + 1) := by omega
      rw [this]

/-- Claim C8: while the game is not finished, `getPlayerView` collapses every
OTHER player development-card list to its count, their resource hand to its
total, and their hidden victory points to zero, while the requesting player
own fields are unchanged; once the phase is `finished` every player is shown
in full. -/
theorem c8_view_redaction (g : Game) (pid : String) (i : Nat)
    (hidx : g.players.findIdx? (fun q => q.id = pid) = some i) :
    (g.phase ≠ Phase.finished →
      ∀ j q, g.players.get? j = some q →
        (j ≠ i →
          ((getPlayerView g pid).players.get? j).map ViewPlayer.developmentCards =
            some (Sum.inr q.developmentCards.length) ∧
          ((getPlayerView g pid).players.get? j).map ViewPlayer.newDevCards =
            some (Sum.inr q.newDevCards.length) ∧
          ((getPlayerView g pid).players.get? j).map ViewPlayer.resources =
            some (Sum.inr q.resources.total) ∧
          ((getPlayerView g pid).players.get? j).map ViewPlayer.hiddenVictoryPoints =
            some 0) ∧
        (j = i →
          ((getPlayerView g pid).players.get? j).map ViewPlayer.developmentCards =
            some (Sum.inl q.developmentCards) ∧
          ((getPlayerView g pid).players.get? j).map ViewPlayer.newDevCards =
            some (Sum.inl q.newDevCards) ∧
          ((getPlayerView g pid).players.get? j).map ViewPlayer.resources =
            some (Sum.inl q.resources) ∧
          ((getPlayerView g pid).players.get? j).map ViewPlayer.hiddenVictoryPoints =
            some q.hiddenVictoryPoints) ∧
        ((getPlayerView g pid).players.get? j).map ViewPlayer.id = some q.id ∧
        ((getPlayerView g pid).players.get? j).map ViewPlayer.victoryPoints =
          some q.victoryPoints ∧
        ((getPlayerView g pid).players.get? j).map ViewPlayer.knightsPlayed =
          some q.knightsPlayed) ∧
    (g.phase = Phase.finished →
      ∀ j q, g.players.get? j = some q →
        ((getPlayerView g pid).players.get? j).map ViewPlayer.developmentCards =
          some (Sum.inl q.developmentCards) ∧
        ((getPlayerView g pid).players.get? j).map ViewPlayer.newDevCards =
          some (Sum.inl q.newDevCards) ∧
        ((getPlayerView g pid).players.get? j).map ViewPlayer.resources =
          some (Sum.inl q.resources) ∧
        ((getPlayerView g pid).players.get? j).map ViewPlayer.hiddenVictoryPoints =
          some q.hiddenVictoryPoints) := by
  have hfi : findIndexI g.players pid = (i : Int) := by
    unfold findIndexI
    rw [hidx]
  constructor
  · intro hnf j q hq
    have hown : (g.phase = Phase.finished ∨ ((j : Nat) : Int) = findIndexI g.players pid)
        ↔ j = i := by
      rw [hfi]
      constructor
      · rintro (hc | hc)
        · exact absurd hc hnf
        · exact_mod_cast hc
      · intro hc
        exact Or.inr (by exact_mod_cast hc)
    refine ⟨?_, ?_, ?_, ?_, ?_⟩ <;>
      first
      | (intro hji
         unfold getPlayerView
         simp only [List.get?_map, get?_enumFrom, hq, Nat.zero_add, Option.map_some]
         simp [hown, hji, hfi, hnf])
      | (unfold getPlayerView
         simp only [List.get?_map, get?_enumFrom, hq, Nat.zero_add, Option.map_some]
         simp [hown])
  · intro hf j q hq
    unfold getPlayerView
    simp only [List.get?_map, get?_enumFrom, hq, Nat.zero_add, Option.map_some]
    simp [hf]

/-- A negative requester index matches no vertex owner. -/
theorem ownerEqI_neg (o : Option Nat) (n : Int) (hn : n < 0) : ownerEqI o n = false := by
  cases o with
  | none => rfl
  | some k =>
    simp only [ownerEqI, decide_eq_false_iff_not]
    omega

/-- A requester absent from the game (index -1) has access to no port. -/
theorem getPlayerPorts_neg (g : Game) (n : Int) (hn : n < 0) : getPlayerPorts g n = [] := by
  unfold getPlayerPorts
  rw [List.filter_eq_nil]
  intro port _
  intro hany
  rw [List.any_eq_true] at hany
  rcases hany with ⟨vk, hvk, hin⟩
  rw [List.any_eq_true] at hin
  rcases hin with ⟨eq2, heq2, hmatch⟩
  cases halk : alookup g.vertices eq2 with
  | none => rw [halk] at hmatch; cases hmatch
  | some vert =>
    rw [halk] at hmatch
    simp only at hmatch
    rw [ownerEqI_neg vert.owner n hn] at hmatch
    simp at hmatch

/-- Claim C10: `getPlayerView` called with a player id that belongs to no
player returns a snapshot with `myIndex = -1`, an empty port list for the
requester, and (while the game is not finished) EVERY player redacted. -/
theorem c10_unknown_requester_view (g : Game) (pid : String)
    (hidx : g.players.findIdx? (fun q => q.id = pid) = none)
    (hnf : g.phase ≠ Phase.finished) :
    (getPlayerView g pid).myIndex = -1 ∧
    (getPlayerView g pid).myPorts = [] ∧
    ∀ j q, g.players.get? j = some q →
      ((getPlayerView g pid).players.get? j).map ViewPlayer.developmentCards =
        some (Sum.inr q.developmentCards.length) ∧
      ((getPlayerView g pid).players.get? j).map ViewPlayer.newDevCards =
        some (Sum.inr q.newDevCards.length) ∧
      ((getPlayerView g pid).players.get? j).map ViewPlayer.resources =
        some (Sum.inr q.resources.total) ∧
      ((getPlayerView g pid).players.get? j).map ViewPlayer.hiddenVictoryPoints =
        some 0 := by
  have hfi : findIndexI g.players pid = -1 := by
    unfold findIndexI
    rw [hidx]
  refine ⟨?_, ?_, ?_⟩
  · show findIndexI g.players pid = -1
    exact hfi
  · show getPlayerPorts g (findIndexI g.players pid) = []
    rw [hfi]
    exact getPlayerPorts_neg g (-1) (by omega)
  · intro j q hq
    have hown : ¬ (g.phase = Phase.finished ∨ ((j : Nat) : Int) = findIndexI g.players pid) := by
      rw [hfi]
      push_neg
      exact ⟨hnf, by omega⟩
    unfold getPlayerView
    simp only [List.get?_map, get?_enumFrom, hq, Nat.zero_add, Option.map_some]
    simp [hown]

/-- A state with two players holding distinguishable hidden information. -/
def c8Game : Game :=
  { baseGame with
      players := [{ freshPlayer ("A") ("Alice") with
                      resources := { zeroRes with brick := 2 },
                      developmentCards := [DevCard.knight],
                      hiddenVictoryPoints := 1 },
                  freshPlayer ("B") ("Bob")] }

/-- Witness for `c8_view_redaction`: requesting as B on `c8Game`, the view
collapses the hand and cards of A and keeps the own hand of B. -/
theorem c8_view_redaction_witness :
    ((getPlayerView c8Game ("B")).players.get? 0).map ViewPlayer.developmentCards =
      some (Sum.inr 1) ∧
    ((getPlayerView c8Game ("B")).players.get? 0).map ViewPlayer.resources =
      some (Sum.inr 2) ∧
    ((getPlayerView c8Game ("B")).players.get? 0).map ViewPlayer.hiddenVictoryPoints =
      some 0 ∧
    ((getPlayerView c8Game ("B")).players.get? 1).map ViewPlayer.resources =
      some (Sum.inl zeroRes) := by
  have h := c8_view_redaction c8Game ("B") 1 (by decide)
  have h0 := h.1 (by decide) 0
    ({ freshPlayer ("A") ("Alice") with
        resources := { zeroRes with brick := 2 },
        developmentCards := [DevCard.knight],
        hiddenVictoryPoints := 1 }) (by decide)
  have h1 := h.1 (by decide) 1 (freshPlayer ("B") ("Bob")) (by decide)
  refine ⟨(h0.1 (by decide)).1, (h0.1 (by decide)).2.2.1, (h0.1 (by decide)).2.2.2, ?_⟩
  exact (h1.2.1 rfl).2.2.1

/-- Witness for `c10_unknown_requester_view`: requesting as the unknown id C
on `c8Game` redacts everybody and yields index -1 and no ports. -/
theorem c10_unknown_requester_witness :
    (getPlayerView c8Game ("C")).myIndex = -1 ∧
    (getPlayerView c8Game ("C")).myPorts = [] ∧
    ((getPlayerView c8Game ("C")).players.get? 1).map ViewPlayer.resources =
      some (Sum.inr 0) := by
  have h := c10_unknown_requester_view c8Game ("C") (by decide) (by decide)
  exact ⟨h.1, h.2.1, (h.2.2 1 (freshPlayer ("B") ("Bob")) (by decide)).2.2.1⟩

end Catan

namespace Catan

/-- Weight of a resolved building: 2 for an owned city, 1 for an owned
settlement, 0 when absent or ownerless. -/
def buildingWeight : Option BuildingInfo → Int
  | some bi => if bi.owner ≠ none then (if bi.btype = Building.city then 2 else 1) else 0
  | none => 0

/-- Per the specification: what one hex pays out in total, one credit per
local vertex direction resolved through the equivalence classes. -/
def hexYield (g : Game) (hex : Hex) : Int :=
  ((List.range 6).map (fun dir => buildingWeight (findBuildingAtHexVertex g hex.q hex.r dir))).sum

/-- Per the specification: the total amount of `res` handed out on a roll,
summed over the qualifying hexes (matching token, not robbed, producing
`res`). -/
def specDistributionTotal (g : Game) (roll : Int) (res : Res) : Int :=
  (g.hexes.map (fun e =>
    if e.2.number = some roll ∧ g.robber ≠ some e.1 ∧ e.2.resource = some res
    then hexYield g e.2 else 0)).sum

/-- Sum of one resource over the gains record of players `0..n-1`. -/
def gainsTotal (gains : List (Nat × Resources)) (n : Nat) (res : Res) : Int :=
  ((List.range n).map (fun i => ((alookup gains i).getD zeroRes).get res)).sum

theorem Resources.get_add (r : Resources) (x y : Res) (v : Int) :
    (r.add x v).get y = r.get y + (if y = x then v else 0) := by
  cases x <;> cases y <;>
    simp [Resources.add, Resources.get, Resources.set]

theorem sum_range_shift (f f' : Nat → Int) (n ow : Nat) (c : Int)
    (hne : ∀ i, i ≠ ow → f' i = f i) (heq : f' ow = f ow + c) (how : ow < n) :
    ((List.range n).map f').sum = ((List.range n).map f).sum + c := by
  induction n with
  | zero => omega
  | succ n ih =>
    rw [List.range_succ, List.map_append, List.map_append, List.sum_append, List.sum_append]
    by_cases hn : ow = n
    · subst hn
      have : ∀ i ∈ List.range ow, f' i = f i := by
        intro i hi
        exact hne i (by simp at hi; omega)
      rw [List.map_congr_left this]
      simp [heq]
      ring
    · rw [ih (by omega)]
      have : f' n = f n := hne n (by omega)
      simp [this]
      ring
end Catan

namespace Catan

theorem gainsTotal_creditAt (st : DState) (ow : Nat) (x : Res) (amt : Int) (n : Nat) (res : Res)
    (how : ow < n) :
    gainsTotal (creditAt st ow x amt).gains n res =
      gainsTotal st.gains n res + (if x = res then amt else 0) := by
  unfold gainsTotal creditAt
  simp only
  apply sum_range_shift _ _ n ow
  · intro i hi
    rw [alookup_aset_ne _ _ _ _ (by omega)]
  · rw [alookup_aset_self]
    simp only [Option.getD_some]
    rw [Resources.get_add]
    congr 1
    simp [eq_comm]
  · exact how

end Catan

namespace Catan

theorem findBuilding_spec (g : Game) (q r : Int) (dir : Nat) (bi : BuildingInfo)
    (h : findBuildingAtHexVertex g q r dir = some bi) :
    bi.vertexKey ∈ getEquivalentVertices q r dir ∧
    ∃ vert, alookup g.vertices bi.vertexKey = some vert ∧ vert.owner = bi.owner ∧
      vert.building = some bi.btype := by
  unfold findBuildingAtHexVertex at h
  generalize hE : getEquivalentVertices q r dir = E at h ⊢
  clear hE
  induction E with
  | nil => simp at h
  | cons k t ih =>
    simp only [List.foldr_cons] at h
    split at h
    · rename_i vert halk
      split at h
      · rename_i b hb
        simp only [Option.some_inj] at h
        subst h
        exact ⟨List.mem_cons_self _ _, vert, halk, rfl, by rw [hb]⟩
      · rcases ih h with ⟨hm, hv⟩
        exact ⟨List.mem_cons_of_mem _ hm, hv⟩
    · rcases ih h with ⟨hm, hv⟩
      exact ⟨List.mem_cons_of_mem _ hm, hv⟩

theorem equivClass_disjoint (q r : Int) {d1 d2 : Nat} (h1 : d1 < 6) (h2 : d2 < 6)
    (hne : d1 ≠ d2) (k : VKey) (hk1 : k ∈ getEquivalentVertices q r d1) :
    k ∉ getEquivalentVertices q r d2 := by
  intro hk2
  interval_cases d1 <;> interval_cases d2 <;>
    simp_all [getEquivalentVertices] <;>
    rcases hk1 with rfl | rfl | rfl <;>
    rcases hk2 with h | h | h <;>
    simp_all [VKey.mk.injEq] <;>
    omega
end Catan

namespace Catan

theorem processed_distStepDir (g : Game) (hc : HexCoord) (hex : Hex) (st : DState) (dir : Nat) :
    ∀ pr ∈ (distStepDir g hc hex st dir).processed,
      pr ∈ st.processed ∨ (pr.1 = hc ∧ pr.2 ∈ getEquivalentVertices hex.q hex.r dir) := by
  intro pr hpr
  simp only [distStepDir] at hpr
  split at hpr
  · exact Or.inl hpr
  · rename_i bi hbi
    split at hpr
    · rename_i ow res0 how hres
      by_cases hmem : (hc, bi.vertexKey) ∈ st.processed
      · rw [if_pos hmem] at hpr
        exact Or.inl hpr
      · rw [if_neg hmem] at hpr
        simp only [creditAt] at hpr
        rcases List.mem_cons.mp hpr with h | h
        · subst h
          exact Or.inr ⟨rfl, (findBuilding_spec g hex.q hex.r dir bi hbi).1⟩
        · exact Or.inl h
    · exact Or.inl hpr

theorem gainsTotal_distStepDir (g : Game) (hc : HexCoord) (hex : Hex) (st : DState) (dir : Nat)
    (res : Res) (n : Nat)
    (howners : ∀ kv ∈ g.vertices, kv.2.owner.getD 0 < n)
    (hproc : ∀ pr ∈ st.processed, pr.1 ≠ hc ∨ pr.2 ∉ getEquivalentVertices hex.q hex.r dir) :
    gainsTotal (distStepDir g hc hex st dir).gains n res =
      gainsTotal st.gains n res +
        (if hex.resource = some res
         then buildingWeight (findBuildingAtHexVertex g hex.q hex.r dir) else 0) := by
  cases hbi : findBuildingAtHexVertex g hex.q hex.r dir with
  | none =>
    simp only [distStepDir, hbi, buildingWeight]
    simp
  | some bi =>
    obtain ⟨hmemK, vert, halk, hown, hbuild⟩ := findBuilding_spec g hex.q hex.r dir bi hbi
    simp only [distStepDir, hbi]
    cases howB : bi.owner with
    | none =>
      cases hres : hex.resource <;> simp [buildingWeight, howB, hres]
    | some ow =>
      cases hres : hex.resource with
      | none => simp [howB, hres]
      | some res0 =>
        simp only [howB, hres]
        have hne : (hc, bi.vertexKey) ∉ st.processed := by
          intro hmem
          rcases hproc _ hmem with h | h
          · exact h rfl
          · exact h hmemK
        rw [if_neg hne]
        have how : ow < n := by
          have := howners (bi.vertexKey, vert) (alookup_mem halk)
          rw [hown, howB] at this
          exact this
        rw [gainsTotal_creditAt _ _ _ _ _ _ how]
        simp [buildingWeight, howB]

theorem zeroRes_get (res : Res) : zeroRes.get res = 0 := by
  cases res <;> rfl

theorem gainsTotal_init (n : Nat) (res : Res) :
    gainsTotal ((List.range n).map (fun i => (i, zeroRes))) n res = 0 := by
  unfold gainsTotal
  have h : ∀ (l : List Nat) (i : Nat),
      ((alookup (l.map (fun j => (j, zeroRes))) i).getD zeroRes) = zeroRes := by
    intro l i
    induction l with
    | nil => rfl
    | cons a t ih =>
      simp only [List.map_cons, alookup]
      by_cases hia : a = i
      · simp [hia]
      · simp [hia, ih]
  apply List.sum_eq_zero
  intro x hx
  simp only [List.mem_map] at hx
  obtain ⟨i, _, rfl⟩ := hx
  rw [h, zeroRes_get]

end Catan

namespace Catan

theorem gainsTotal_foldDirs (g : Game) (hc : HexCoord) (hex : Hex) (n : Nat) (res : Res)
    (howners : ∀ kv ∈ g.vertices, kv.2.owner.getD 0 < n)
    (D : List Nat) (hD6 : ∀ d ∈ D, d < 6) (hnd : D.Nodup) (st : DState)
    (hproc : ∀ pr ∈ st.processed, ∀ d ∈ D,
      pr.1 ≠ hc ∨ pr.2 ∉ getEquivalentVertices hex.q hex.r d) :
    gainsTotal (D.foldl (distStepDir g hc hex) st).gains n res =
      gainsTotal st.gains n res +
        (D.map (fun d => if hex.resource = some res
          then buildingWeight (findBuildingAtHexVertex g hex.q hex.r d) else 0)).sum ∧
    (∀ pr ∈ (D.foldl (distStepDir g hc hex) st).processed,
      pr ∈ st.processed ∨ pr.1 = hc) := by
  induction D generalizing st with
  | nil => exact ⟨by simp, fun pr hpr => Or.inl hpr⟩
  | cons d D ih =>
    have hd6 : d < 6 := hD6 d (List.mem_cons_self _ _)
    have hdt : d ∉ D := (List.nodup_cons.mp hnd).1
    have hstep := gainsTotal_distStepDir g hc hex st d res n howners
      (fun pr hpr => hproc pr hpr d (List.mem_cons_self _ _))
    have hproc1 : ∀ pr ∈ (distStepDir g hc hex st d).processed, ∀ d2 ∈ D,
        pr.1 ≠ hc ∨ pr.2 ∉ getEquivalentVertices hex.q hex.r d2 := by
      intro pr hpr d2 hd2
      rcases processed_distStepDir g hc hex st d pr hpr with h | ⟨h1, h2⟩
      · exact hproc pr h d2 (List.mem_cons_of_mem _ hd2)
      · exact Or.inr (equivClass_disjoint hex.q hex.r hd6
          (hD6 d2 (List.mem_cons_of_mem _ hd2))
          (fun he => hdt (he ▸ hd2)) pr.2 h2)
    have ihr := ih (fun d2 hd2 => hD6 d2 (List.mem_cons_of_mem _ hd2))
      (List.Nodup.of_cons hnd) (distStepDir g hc hex st d) hproc1
    constructor
    · rw [List.foldl_cons, ihr.1, hstep, List.map_cons, List.sum_cons]
      ring
    · intro pr hpr
      rw [List.foldl_cons] at hpr
      rcases ihr.2 pr hpr with h | h
      · rcases processed_distStepDir g hc hex st d pr h with h2 | ⟨h2, _⟩
        · exact Or.inl h2
        · exact Or.inr h2
      · exact Or.inr h

end Catan

namespace Catan

theorem gainsTotal_foldHexes (g : Game) (roll : Int) (n : Nat) (res : Res)
    (howners : ∀ kv ∈ g.vertices, kv.2.owner.getD 0 < n)
    (H : List (HexCoord × Hex)) (hnd : (H.map Prod.fst).Nodup) (st : DState)
    (hproc : ∀ pr ∈ st.processed, pr.1 ∉ H.map Prod.fst) :
    gainsTotal (H.foldl (distHex g roll) st).gains n res =
      gainsTotal st.gains n res +
        (H.map (fun e =>
          if e.2.number = some roll ∧ g.robber ≠ some e.1 ∧ e.2.resource = some res
          then hexYield g e.2 else 0)).sum := by
  induction H generalizing st with
  | nil => simp
  | cons e H ih =>
    have hhd : e.1 ∉ H.map Prod.fst := by
      rw [List.map_cons] at hnd
      exact (List.nodup_cons.mp hnd).1
    have htl : (H.map Prod.fst).Nodup := by
      rw [List.map_cons] at hnd
      exact (List.nodup_cons.mp hnd).2
    rw [List.foldl_cons, List.map_cons, List.sum_cons]
    by_cases hcond : e.2.number = some roll ∧ g.robber ≠ some e.1
    · have hdirs := gainsTotal_foldDirs g e.1 e.2 n res howners
        (List.range 6) (by intro d hd; simpa using hd) (List.nodup_range 6) st
        (by
          intro pr hpr d hd
          left
          intro hfst
          apply hproc pr hpr
          rw [List.map_cons, hfst]
          exact List.mem_cons_self _ _)
      have hdh : distHex g roll st e = (List.range 6).foldl (distStepDir g e.1 e.2) st := by
        simp only [distHex, if_pos hcond]
      rw [hdh]
      have hproc1 : ∀ pr ∈ ((List.range 6).foldl (distStepDir g e.1 e.2) st).processed,
          pr.1 ∉ H.map Prod.fst := by
        intro pr hpr
        rcases hdirs.2 pr hpr with h | h
        · intro hmem
          apply hproc pr h
          rw [List.map_cons]
          exact List.mem_cons_of_mem _ hmem
        · rw [h]
          exact hhd
      rw [ih htl _ hproc1, hdirs.1]
      have hsum : ((List.range 6).map (fun d =>
          if e.2.resource = some res
          then buildingWeight (findBuildingAtHexVertex g e.2.q e.2.r d) else 0)).sum =
          (if e.2.number = some roll ∧ g.robber ≠ some e.1 ∧ e.2.resource = some res
           then hexYield g e.2 else 0) := by
        by_cases hr : e.2.resource = some res
        · simp [hr, hcond.1, hcond.2, hexYield]
        · simp [hr]
      rw [hsum]
      ring
    · have hdh : distHex g roll st e = st := by
        simp only [distHex, if_neg hcond]
      have hproc1 : ∀ pr ∈ st.processed, pr.1 ∉ H.map Prod.fst := by
        intro pr hpr hmem
        apply hproc pr hpr
        rw [List.map_cons]
        exact List.mem_cons_of_mem _ hmem
      have hterm : ¬(e.2.number = some roll ∧ g.robber ≠ some e.1 ∧ e.2.resource = some res) := by
        intro h
        exact hcond ⟨h.1, h.2.1⟩
      rw [hdh, ih htl st hproc1, if_neg hterm]
      ring

end Catan

namespace Catan

/-- Claim C3: for every roll total other than 7, on any game whose hex keys
are distinct and whose recorded vertex owners are indices of existing players,
the total of each resource handed out by `distributeResources`, summed over
all players, equals the specification total: the sum over qualifying hexes
(token equal to the roll, not holding the robber, producing that resource) of
1 per adjacent owned settlement and 2 per adjacent owned city, where a hex
credits a resolved physical vertex at most once and the robber hex never
contributes. -/
theorem c3_distribution_conservation (g : Game) (roll : Int) (res : Res)
    (hroll : roll ≠ 7)
    (hnodup : (g.hexes.map Prod.fst).Nodup)
    (howners : ∀ kv ∈ g.vertices, kv.2.owner.getD 0 < g.players.length) :
    gainsTotal (distributeResources g roll).2 g.players.length res =
      specDistributionTotal g roll res := by
  simp only [distributeResources]
  rw [gainsTotal_foldHexes g roll g.players.length res howners g.hexes hnodup _
    (by intro pr hpr; simp at hpr), gainsTotal_init]
  simp [specDistributionTotal]

/-- A standard board with one settlement, for exercising the distribution
conservation result. -/
def c3Game : Game :=
  let g0 := createGame ("g3") ("A") ("Alice") false true
    (List.replicate 18 0) (List.replicate 17 0) (List.replicate 24 0)
  { g0 with
      vertices := aset g0.vertices ⟨0, 0, 0⟩
        { building := some Building.settlement, owner := some 0 } }

set_option maxRecDepth 100000 in
theorem c3_distribution_witness :
    (5 : Int) ≠ 7 ∧
    (c3Game.hexes.map Prod.fst).Nodup ∧
    gainsTotal (distributeResources c3Game 5).2 c3Game.players.length Res.brick =
      specDistributionTotal c3Game 5 Res.brick :=
  ⟨by decide, by decide,
    c3_distribution_conservation c3Game 5 Res.brick (by decide) (by decide) (by decide)⟩

end Catan
